import Mathlib

/-!
Verification development for the clothing try-on client (four vendor API
adapters plus an orchestrator).  The Python sources are embedded shallowly:

* JSON values are modelled by the inductive `Json`; Python truthiness,
  `k in d` membership and `d[k]` subscripting are modelled by `jsonTruthy`,
  `jsonMember` and `jsonSubscript` (a `none` result of the latter two stands
  for a Python `TypeError`).
* Each adapter's `generate` is a pure function of its arguments and of a
  network oracle `net : Nat → NetResult` giving the transport outcome of the
  n-th HTTP call the adapter issues.  The function returns the outcome
  together with the list of side effects performed (HTTP calls and sleeps),
  so "no network call happened" is expressible as an empty trace.
* A `return None` preceded by a user-facing error message in the source is
  embedded as `TryOnResult.failure stage reason` where `reason` is the exact
  message string and `stage` is the stage of the error taxonomy of the design
  (validation / submit / poll / download / timeout) to which the failing code
  site belongs; `st.warning` / `st.info` emissions that do not change control
  flow are not recorded.
* Abstractions (each marked at its definition): JPEG/base64 encoding is an
  opaque total function of the bitmap; the text of a Python exception object
  is the fixed placeholder `pyExcStr`; decoding downloaded bytes to a bitmap
  is modelled by the oracle response field `embeddedImage` (`none` = the
  bytes do not decode); any URL string is treated as syntactically valid;
  binary floating point in `int(h * (m / w))` is modelled as exact rational
  arithmetic followed by floor, i.e. Nat division.
-/

/-- JSON values as delivered by `response.json()`.  Numbers are modelled as
integers (the sources only consume integer-valued fields). -/
inductive Json where
  | null : Json
  | bool (b : Bool) : Json
  | num (n : Int) : Json
  | str (s : String) : Json
  | arr (xs : List Json) : Json
  | obj (fields : List (String × Json)) : Json

/-- First-match association lookup, modelling Python `dict` access on a
parsed JSON object (keys are unique in a parsed object, so first match is
the dict entry). -/
def assocFind : List (String × Json) → String → Option Json
  | [], _ => none
  | (k', v) :: rest, k => if k' = k then some v else assocFind rest k

/-- `d.get(k)` on a JSON object; `none` on non-objects (the sources reach the
non-object case only through paths that raise, which callers model
explicitly). -/
def Json.lookup (j : Json) (k : String) : Option Json :=
  match j with
  | Json.obj fs => assocFind fs k
  | _ => none

/-- Python truthiness of a JSON value. -/
def jsonTruthy : Json → Bool
  | Json.null => false
  | Json.bool b => b
  | Json.num n => n != 0
  | Json.str s => !s.isEmpty
  | Json.arr xs => !xs.isEmpty
  | Json.obj fs => !fs.isEmpty

/-- `pat` occurs as a contiguous run of `l`. -/
def charsContain (pat : List Char) : List Char → Bool
  | [] => pat.isEmpty
  | c :: rest => List.isPrefixOf pat (c :: rest) || charsContain pat rest

/-- Python `pat in s` on strings: substring occurrence, computed on the
character lists. -/
def strContains (s pat : String) : Bool := charsContain pat.data s.data

/-- Python `k in v`: key membership for dicts, substring test for strings,
element membership for lists; `none` models the `TypeError` raised on the
remaining types. -/
def jsonMember (j : Json) (k : String) : Option Bool :=
  match j with
  | Json.obj _ => some (j.lookup k).isSome
  | Json.str s => some (strContains s k)
  | Json.arr xs => some (xs.any (fun x => match x with | Json.str t => t == k | _ => false))
  | _ => none

/-- Python `v[k]` with a string key: defined for dicts, `none` models the
`TypeError` raised on every other type. -/
def jsonSubscript (j : Json) (k : String) : Option Json :=
  match j with
  | Json.obj _ => j.lookup k
  | _ => none

/-- Rendering of a JSON value inside a Python f-string.  Lists and dicts are
abstracted to fixed markers (their `repr` text is never inspected by the
sources). -/
def Json.render : Json → String
  | Json.null => "None"
  | Json.bool true => "True"
  | Json.bool false => "False"
  | Json.num n => toString n
  | Json.str s => s
  | Json.arr _ => "[list]"
  | Json.obj _ => "[dict]"

/-- Whether `x in v` evaluates without a `TypeError` (v iterable / container). -/
def pyInOk : Json → Bool
  | Json.arr _ => true
  | Json.str _ => true
  | Json.obj _ => true
  | _ => false

/-- `d.get(k, dflt)` rendered into an f-string. -/
def jsonGetRender (j : Json) (k dflt : String) : String :=
  match j.lookup k with
  | some v => Json.render v
  | none => dflt

/-- Placeholder for the text `str(e)` of a Python exception; the model does
not track exception payloads. -/
def pyExcStr : String := "<exception>"

/-- An in-memory bitmap: the model tracks pixel dimensions and the PIL color
mode, the only attributes the sources inspect. -/
structure PImage where
  width : Nat
  height : Nat
  mode : String
  deriving DecidableEq

/-- An HTTP response as seen through the `requests` library.
`body` is the result of `response.json()` (`none` = the body is not valid
JSON and `.json()` raises); `text` is the raw body text; `embeddedImage` is
the bitmap obtained by decoding the response bytes (or the base64 payload the
body embeds), `none` meaning decoding raises. -/
structure HttpResponse where
  statusCode : Nat
  body : Option Json := none
  text : String := ""
  contentType : String := ""
  embeddedImage : Option PImage := none

/-- Transport outcome of one HTTP call: a response, a `requests` timeout, or
another `requests` transport error carrying `str(e)`. -/
inductive NetResult where
  | ok (resp : HttpResponse) : NetResult
  | netTimeout : NetResult
  | netError (msg : String) : NetResult

/-- Observable side effects of an adapter run.  Multipart posts record the
file part names and the plain form fields; image payloads travel out of band. -/
inductive Effect where
  | post (url : String) (body : Json) : Effect
  | postMultipart (url : String) (parts : List String) (form : List (String × String)) : Effect
  | get (url : String) : Effect
  | sleep (seconds : Nat) : Effect

/-- Stages of the failure taxonomy of the design (§7): where in the pipeline
a failure was produced. -/
inductive Stage where
  | validation | submit | poll | download | timeout
  deriving DecidableEq

/-- Outcome of a `generate` call: the produced bitmap, or a failure carrying
its stage and the user-facing reason text. -/
inductive TryOnResult where
  | success (image : PImage) : TryOnResult
  | failure (stage : Stage) (reason : String) : TryOnResult
  deriving DecidableEq

/-- Python falsiness of the stored credential: `None` or the empty string. -/
def keyMissing : Option String → Bool
  | none => true
  | some s => s.isEmpty

/-- `str(b).lower()` for a Python bool. -/
def pyBoolStr (b : Bool) : String := if b then "true" else "false"

/-- Best-effort vendor error decoding shared by all adapters
(`models/*.py`): the body is parsed as JSON and the first field of `fields`
present is appended to `base`; a parse failure, or a `TypeError` raised while
probing a non-dict body, appends the raw response text; a parsed body with
none of the fields leaves `base` unchanged. -/
def firstFieldMsg (base : String) : List String → Json → String → String
  | [], _, _ => base
  | f :: rest, j, text =>
    match jsonMember j f with
    | none => base ++ " - " ++ text
    | some true =>
      match jsonSubscript j f with
      | some v => base ++ " - " ++ Json.render v
      | none => base ++ " - " ++ text
    | some false => firstFieldMsg base rest j text

/-- Error-reason construction at a non-success HTTP response: see
`firstFieldMsg`; a `none` body means `response.json()` raised. -/
def bestEffortErrorMsg (base : String) (fields : List String) (body : Option Json) (text : String) : String :=
  match body with
  | none => base ++ " - " ++ text
  | some j => firstFieldMsg base fields j text

/-- Count of GET requests for `u` in an effect trace. -/
def pollGetCount (u : String) (tr : List Effect) : Nat :=
  tr.countP (fun e => match e with | Effect.get v => v == u | _ => false)

/-! ## utils/image_processing.py -/

/-- Opaque model of JPEG encoding followed by base64: a total function of the
bitmap (`utils/image_processing.py` delegates the byte-level codec to PIL,
an external collaborator). -/
def jpegBase64 (img : PImage) : String :=
  "jpeg-base64:" ++ toString img.width ++ "x" ++ toString img.height ++ ":" ++ img.mode

/-- `preprocess_image` of `utils/image_processing.py`: cap both dimensions at
1024 preserving aspect ratio (Nat division models `int` of the float
product), then flatten alpha/palette modes onto an RGB background (which
keeps the pixel size). -/
def preprocess_image (image : PImage) : PImage :=
  let max_size := 1024
  let image :=
    if image.width > max_size ∨ image.height > max_size then
      if image.width > image.height then
        { image with width := max_size, height := image.height * max_size / image.width }
      else
        { image with width := image.width * max_size / image.height, height := max_size }
    else image
  if image.mode = "RGBA" ∨ image.mode = "LA" ∨ image.mode = "P" then
    { image with mode := "RGB" }
  else image

/-- `image_to_base64` of `utils/image_processing.py`: flatten alpha/palette
modes to RGB, then JPEG-encode and base64 the result. -/
def image_to_base64 (image : PImage) : String :=
  let image :=
    if image.mode = "RGBA" ∨ image.mode = "LA" ∨ image.mode = "P" then
      { image with mode := "RGB" }
    else image
  jpegBase64 image

/-! ## models/tryon_diffusion.py -/

def tryonDiffusionUrl : String := "https://api.segmind.com/v1/try-on-diffusion"

def tryonDiffusionGenericMsg : String :=
  "Try-On Diffusion API呼び出し中にエラーが発生しました: " ++ pyExcStr

/-- The JSON request body built by `TryOnDiffusionClient.generate`. -/
def tryonDiffusionBody (modelImage clothImage : PImage) (category : String)
    (numInferenceSteps guidanceScale seed : Int) : Json :=
  Json.obj [
    ("model_image", Json.str (image_to_base64 modelImage)),
    ("cloth_image", Json.str (image_to_base64 clothImage)),
    ("category", Json.str category),
    ("num_inference_steps", Json.num numInferenceSteps),
    ("guidance_scale", Json.num guidanceScale),
    ("seed", Json.num seed),
    ("base64", Json.bool true)]

/-- `TryOnDiffusionClient.generate`: one synchronous POST; a 200 response is
decoded as an embedded base64 image (JSON content type) or as raw image
bytes; non-200 responses produce a submit failure with the best-effort
decoded vendor error (`error` / `message`). -/
def tryonDiffusionGenerate (apiKey : Option String) (modelImage clothImage : PImage)
    (category : String) (numInferenceSteps guidanceScale seed : Int)
    (net : Nat → NetResult) : TryOnResult × List Effect :=
  if keyMissing apiKey then
    (TryOnResult.failure Stage.validation "Segmind API キーが設定されていません。", [])
  else
    let tr := [Effect.post tryonDiffusionUrl
      (tryonDiffusionBody modelImage clothImage category numInferenceSteps guidanceScale seed)]
    match net 0 with
    | NetResult.netTimeout =>
      (TryOnResult.failure Stage.submit
        "Try-On Diffusion API のタイムアウトエラーです。処理に時間がかかりすぎています。", tr)
    | NetResult.netError e =>
      (TryOnResult.failure Stage.submit ("Try-On Diffusion API接続エラー: " ++ e), tr)
    | NetResult.ok resp =>
      if resp.statusCode = 200 then
        if strContains resp.contentType "application/json" then
          match resp.body with
          | none => (TryOnResult.failure Stage.submit tryonDiffusionGenericMsg, tr)
          | some j =>
            match jsonMember j "image" with
            | some true =>
              match jsonSubscript j "image" with
              | some (Json.str _) =>
                (match resp.embeddedImage with
                 | some img => (TryOnResult.success img, tr)
                 | none => (TryOnResult.failure Stage.submit tryonDiffusionGenericMsg, tr))
              | _ => (TryOnResult.failure Stage.submit tryonDiffusionGenericMsg, tr)
            | some false =>
              (TryOnResult.failure Stage.submit "APIレスポンスに画像データが含まれていません。", tr)
            | none => (TryOnResult.failure Stage.submit tryonDiffusionGenericMsg, tr)
        else
          match resp.embeddedImage with
          | some img => (TryOnResult.success img, tr)
          | none => (TryOnResult.failure Stage.submit tryonDiffusionGenericMsg, tr)
      else
        (TryOnResult.failure Stage.submit
          (bestEffortErrorMsg ("Try-On Diffusion API エラー: " ++ toString resp.statusCode)
            ["error", "message"] resp.body resp.text), tr)

/-! ## models/pixelcut.py -/

def pixelcutUrl : String := "https://api.developer.pixelcut.ai/v1/try-on"

def pixelcutGenericMsg : String := "PixelCut API呼び出し中にエラーが発生しました: " ++ pyExcStr

def pixelcutTimeoutMsg : String :=
  "PixelCut API のタイムアウトエラーです。処理に時間がかかりすぎています。"

/-- The multipart submit request of `PixelCutClient.generate`. -/
def pixelcutPostEffect (garmentMode : String) (preprocessGarment removeBackground waitForResult : Bool) : Effect :=
  Effect.postMultipart pixelcutUrl ["person_image", "garment_image"]
    [("garment_mode", garmentMode),
     ("preprocess_garment", pyBoolStr preprocessGarment),
     ("remove_background", pyBoolStr removeBackground),
     ("wait_for_result", pyBoolStr waitForResult)]

/-- `PixelCutClient.generate`: one multipart POST; a 200 response must carry
a `result_url` which is fetched with one GET (non-200 there is a download
failure); a 202 response is the unimplemented async path and fails at
submit; every other status produces a submit failure with the best-effort
decoded vendor error (`error` / `message`). -/
def pixelcutGenerate (apiKey : Option String) (personImage garmentImage : PImage)
    (garmentMode : String) (preprocessGarment removeBackground waitForResult : Bool)
    (net : Nat → NetResult) : TryOnResult × List Effect :=
  if keyMissing apiKey then
    (TryOnResult.failure Stage.validation "PixelCut API キーが設定されていません。", [])
  else
    let tr := [pixelcutPostEffect garmentMode preprocessGarment removeBackground waitForResult]
    match net 0 with
    | NetResult.netTimeout => (TryOnResult.failure Stage.submit pixelcutTimeoutMsg, tr)
    | NetResult.netError e =>
      (TryOnResult.failure Stage.submit ("PixelCut API接続エラー: " ++ e), tr)
    | NetResult.ok resp =>
      if resp.statusCode = 200 then
        match resp.body with
        | none => (TryOnResult.failure Stage.submit pixelcutGenericMsg, tr)
        | some j =>
          match jsonMember j "result_url" with
          | some true =>
            match jsonSubscript j "result_url" with
            | some (Json.str u) =>
              let tr2 := tr ++ [Effect.get u]
              (match net 1 with
               | NetResult.ok ir =>
                 if ir.statusCode = 200 then
                   match ir.embeddedImage with
                   | some img => (TryOnResult.success img, tr2)
                   | none => (TryOnResult.failure Stage.submit pixelcutGenericMsg, tr2)
                 else
                   (TryOnResult.failure Stage.download
                     ("結果画像のダウンロードに失敗しました: " ++ toString ir.statusCode), tr2)
               | NetResult.netTimeout => (TryOnResult.failure Stage.submit pixelcutTimeoutMsg, tr2)
               | NetResult.netError e =>
                 (TryOnResult.failure Stage.submit ("PixelCut API接続エラー: " ++ e), tr2))
            | _ =>
              (TryOnResult.failure Stage.submit ("PixelCut API接続エラー: " ++ pyExcStr), tr)
          | some false =>
            (TryOnResult.failure Stage.submit "APIレスポンスに結果URLが含まれていません。", tr)
          | none => (TryOnResult.failure Stage.submit pixelcutGenericMsg, tr)
      else if resp.statusCode = 202 then
        match resp.body with
        | none => (TryOnResult.failure Stage.submit pixelcutGenericMsg, tr)
        | some _ =>
          (TryOnResult.failure Stage.submit
            "処理がキューに追加されました。job_idでの状態確認機能は未実装です。", tr)
      else
        (TryOnResult.failure Stage.submit
          (bestEffortErrorMsg ("PixelCut API エラー: " ++ toString resp.statusCode)
            ["error", "message"] resp.body resp.text), tr)

/-! ## models/fashn.py -/

def fashnRunUrl : String := "https://api.fashn.ai/v1/run"

def fashnStatusUrl : String := "https://api.fashn.ai/v1/status"

def fashnGenericMsg : String := "FASHN API呼び出し中にエラーが発生しました: " ++ pyExcStr

def fashnSubmitTimeoutMsg : String := "FASHN API のタイムアウトエラーです。"

def fashnTimeoutMsg : String :=
  "FASHN API 処理がタイムアウトしました。処理に時間がかかりすぎています。"

/-- The option dictionary consumed by `FASHNClient.generate` with the
`kwargs.get` defaults of the source. -/
structure FashnArgs where
  modelVersion : String := "tryon-v1.6"
  category : String := "auto"
  mode : String := "balanced"
  garmentPhotoType : String := "auto"
  seed : Int := 42
  numSamples : Int := 1
  moderationLevel : String := "permissive"
  segmentationFree : Bool := true

/-- PIL `Image.thumbnail((m, m))`: shrink to fit in an `m`-square preserving
aspect ratio (PIL's float rounding is modelled by exact Nat division). -/
def fitWithin (w h m : Nat) : Nat × Nat :=
  if w ≤ m ∧ h ≤ m then (w, h)
  else if w ≥ h then (m, h * m / w) else (w * m / h, m)

/-- `FASHNClient._prepare_image_data`: RGB conversion, the version of the
resize chosen by `is_model_image` (portrait model images get exact
height-based scaling, otherwise a thumbnail fit at 1024 or 768), then the
base64 data URI.  The image-validation warnings of
`_validate_model_image` do not alter control flow. -/
def fashnPreparedData (image : PImage) (isModelImage : Bool) : String :=
  let image := if image.mode ≠ "RGB" then { image with mode := "RGB" } else image
  let image :=
    if isModelImage then
      if image.height > image.width then
        if image.height > 1024 then
          { image with width := image.width * 1024 / image.height, height := 1024 }
        else image
      else
        if image.width > 1024 ∨ image.height > 1024 then
          { image with width := (fitWithin image.width image.height 1024).1,
                       height := (fitWithin image.width image.height 1024).2 }
        else image
    else
      if image.width > 768 ∨ image.height > 768 then
        { image with width := (fitWithin image.width image.height 768).1,
                     height := (fitWithin image.width image.height 768).2 }
      else image
  "data:image/jpeg;base64," ++ jpegBase64 image

/-- `_prepare_image_data` returns `None` only when a PIL operation raises;
the model's codec is total, so the result is always `some`.  The `None`
branch of the caller is kept for structural fidelity. -/
def fashnPrepareImage (image : PImage) (isModelImage : Bool) : Option String :=
  some (fashnPreparedData image isModelImage)

/-- The version-dependent `inputs` dictionary of `FASHNClient.generate`:
the `tryon-v1.6` field set, or for every other `model_version` the
`tryon-v1.5` field set (which adds `moderation_level` and
`segmentation_free`). -/
def fashnInputs (args : FashnArgs) (modelB64 garmentB64 : String) : List (String × Json) :=
  if args.modelVersion = "tryon-v1.6" then
    [("model_image", Json.str modelB64),
     ("garment_image", Json.str garmentB64),
     ("category", Json.str args.category),
     ("mode", Json.str args.mode),
     ("garment_photo_type", Json.str args.garmentPhotoType),
     ("seed", Json.num args.seed),
     ("num_samples", Json.num args.numSamples)]
  else
    [("model_image", Json.str modelB64),
     ("garment_image", Json.str garmentB64),
     ("category", Json.str args.category),
     ("mode", Json.str args.mode),
     ("garment_photo_type", Json.str args.garmentPhotoType),
     ("moderation_level", Json.str args.moderationLevel),
     ("seed", Json.num args.seed),
     ("num_samples", Json.num args.numSamples),
     ("segmentation_free", Json.bool args.segmentationFree)]

/-- The JSON body POSTed to `v1/run`. -/
def fashnRunData (args : FashnArgs) (modelB64 garmentB64 : String) : Json :=
  Json.obj [("model_name", Json.str args.modelVersion),
            ("inputs", Json.obj (fashnInputs args modelB64 garmentB64))]

/-- Classification of one poll transport outcome by the dispatch of
`FASHNClient._poll_for_result`: a 200 response whose JSON body carries
status `completed` or `failed` is terminal; every other outcome
(transport error, non-200, unparseable body, other or missing status)
continues the loop. -/
inductive PollStep where
  | next : PollStep
  | completed (j : Json) : PollStep
  | failed (j : Json) : PollStep

def fashnClassify (r : NetResult) : PollStep :=
  match r with
  | NetResult.ok resp =>
    if resp.statusCode = 200 then
      match resp.body with
      | some j =>
        match j.lookup "status" with
        | some (Json.str "completed") => PollStep.completed j
        | some (Json.str "failed") => PollStep.failed j
        | _ => PollStep.next
      | none => PollStep.next
    else PollStep.next
  | _ => PollStep.next

/-- `FASHNClient._poll_for_result`: up to `fuel` attempts, each preceded by a
3 s sleep; `completed` downloads the first output URL (a transport error or
an undecodable download is swallowed as transient, a non-200 download is a
terminal download failure, a malformed `output` is a terminal poll failure);
`failed` is a terminal poll failure; exhausting the ceiling is a timeout
failure.  `k` is the index of the next network call. -/
def fashnPoll (net : Nat → NetResult) (url : String) :
    Nat → Nat → List Effect → TryOnResult × List Effect
  | 0, _, tr => (TryOnResult.failure Stage.timeout fashnTimeoutMsg, tr)
  | fuel + 1, k, tr =>
    let tr2 := tr ++ [Effect.sleep 3, Effect.get url]
    match fashnClassify (net k) with
    | PollStep.next => fashnPoll net url fuel (k + 1) tr2
    | PollStep.failed j =>
      (TryOnResult.failure Stage.poll
        ("FASHN API 処理エラー: " ++ jsonGetRender j "error" "不明なエラー"), tr2)
    | PollStep.completed j =>
      match j.lookup "output" with
      | some out =>
        if jsonTruthy out then
          match out with
          | Json.arr (u :: _) =>
            let tr3 := tr2 ++ [Effect.get (Json.render u)]
            (match net (k + 1) with
             | NetResult.ok ir =>
               if ir.statusCode = 200 then
                 match ir.embeddedImage with
                 | some img => (TryOnResult.success img, tr3)
                 | none => fashnPoll net url fuel (k + 2) tr3
               else
                 (TryOnResult.failure Stage.download
                   ("結果画像のダウンロードに失敗: " ++ toString ir.statusCode), tr3)
             | _ => fashnPoll net url fuel (k + 2) tr3)
          | _ => (TryOnResult.failure Stage.poll "結果画像のURLが取得できませんでした。", tr2)
        else
          (TryOnResult.failure Stage.poll
            "処理は完了しましたが、結果画像が見つかりませんでした。", tr2)
      | none =>
        (TryOnResult.failure Stage.poll
          "処理は完了しましたが、結果画像が見つかりませんでした。", tr2)

/-- Effects of `n` consecutive unanswered FASHN poll attempts. -/
def fashnPollTrace (url : String) : Nat → List Effect
  | 0 => []
  | n + 1 => Effect.sleep 3 :: Effect.get url :: fashnPollTrace url n

/-- `FASHNClient.generate`: credential guard, image preparation, the
version-dependent JSON submit, then the poll loop with ceiling 40. -/
def fashnGenerate (apiKey : Option String) (modelImage garmentImage : PImage)
    (args : FashnArgs) (net : Nat → NetResult) : TryOnResult × List Effect :=
  if keyMissing apiKey then
    (TryOnResult.failure Stage.validation "FASHN API キーが設定されていません。", [])
  else
    match fashnPrepareImage modelImage true, fashnPrepareImage garmentImage false with
    | some mb64, some gb64 =>
      let tr := [Effect.post fashnRunUrl (fashnRunData args mb64 gb64)]
      match net 0 with
      | NetResult.netTimeout => (TryOnResult.failure Stage.submit fashnSubmitTimeoutMsg, tr)
      | NetResult.netError e =>
        (TryOnResult.failure Stage.submit ("FASHN API接続エラー: " ++ e), tr)
      | NetResult.ok resp =>
        if resp.statusCode ≠ 200 then
          (TryOnResult.failure Stage.submit
            (bestEffortErrorMsg ("FASHN API 実行エラー: " ++ toString resp.statusCode)
              ["error", "message", "detail"] resp.body resp.text), tr)
        else
          match resp.body with
          | none => (TryOnResult.failure Stage.submit fashnGenericMsg, tr)
          | some j =>
            match jsonMember j "id" with
            | some true =>
              match jsonSubscript j "id" with
              | some idv => fashnPoll net (fashnStatusUrl ++ "/" ++ Json.render idv) 40 1 tr
              | none => (TryOnResult.failure Stage.submit fashnGenericMsg, tr)
            | some false =>
              (TryOnResult.failure Stage.submit "処理IDが取得できませんでした。", tr)
            | none => (TryOnResult.failure Stage.submit fashnGenericMsg, tr)
    | _, _ =>
      (TryOnResult.failure Stage.validation "画像データの準備に失敗しました。", [])

/-! ## models/fitroom.py -/

def fitroomBase : String := "https://platform.fitroom.app/api"

def fitroomCheckModelUrl : String := fitroomBase ++ "/tryon/input_check/v1/model"

def fitroomCheckClothesUrl : String := fitroomBase ++ "/tryon/input_check/v1/clothes"

def fitroomTasksUrl : String := fitroomBase ++ "/tryon/v2/tasks"

def fitroomGenericMsg : String := "Fitroom API呼び出し中にエラーが発生しました: " ++ pyExcStr

def fitroomTimeoutMsg : String :=
  "Fitroom API 処理がタイムアウトしました。処理に時間がかかりすぎています。"

def fitroomCheckModelEffect : Effect :=
  Effect.postMultipart fitroomCheckModelUrl ["input_image"] []

def fitroomCheckClothesEffect : Effect :=
  Effect.postMultipart fitroomCheckClothesUrl ["input_image"] []

/-- The option dictionary consumed by `FitroomClient.generate` with the
`kwargs.get` defaults of the source. -/
structure FitroomArgs where
  clothType : String := "upper"
  lowerClothImage : Option PImage := none
  checkImages : Bool := true

/-- Common shape of `check_model_image`, `check_clothes_image` and
`get_task_status`: the parsed JSON body on HTTP 200, otherwise `None`
(transport errors and parse errors are displayed and swallowed). -/
def fitroomCheckResult : NetResult → Option Json
  | NetResult.ok resp => if resp.statusCode = 200 then resp.body else none
  | _ => none

/-- The generic task-creation exception message of
`FitroomClient.create_tryon_task` (its `except Exception` handler, which
also catches `requests` timeouts — the adapter has no dedicated timeout
handler at this step). -/
def fitroomCreateExcMsg : String := "タスク作成中にエラーが発生しました: " ++ pyExcStr

/-- `FitroomClient.create_tryon_task` outcome: the parsed body on 200, or
the displayed error message (best-effort decode of an `error` field on a
non-200 status; the generic task-creation message when the transport or the
body parse raises). -/
def fitroomCreateTask (r : NetResult) : Except String Json :=
  match r with
  | NetResult.netTimeout => Except.error fitroomCreateExcMsg
  | NetResult.netError e => Except.error ("タスク作成中にエラーが発生しました: " ++ e)
  | NetResult.ok resp =>
    if resp.statusCode = 200 then
      match resp.body with
      | some j => Except.ok j
      | none => Except.error fitroomCreateExcMsg
    else
      Except.error (bestEffortErrorMsg ("タスク作成エラー: " ++ toString resp.statusCode)
        ["error"] resp.body resp.text)

/-- `status_result.get('progress', 0)` fed to `st.progress(progress / 100.0)`
succeeds exactly when the value is numeric (Python bools count as numbers)
and the quotient lies in [0, 1]; anything else raises and the poll iteration
is swallowed as transient. -/
def fitroomProgressOk (j : Json) : Bool :=
  match j.lookup "progress" with
  | none => true
  | some (Json.num n) => 0 ≤ n && n ≤ 100
  | some (Json.bool _) => true
  | some _ => false

/-- Classification of one Fitroom poll outcome by the dispatch of
`FitroomClient._poll_for_result`: a 200 response with a truthy JSON-object
body that passes the progress-bar update and carries status `COMPLETED` or
`FAILED` is terminal; everything else continues the loop. -/
def fitroomClassify (r : NetResult) : PollStep :=
  match fitroomCheckResult r with
  | none => PollStep.next
  | some j =>
    if jsonTruthy j then
      match j with
      | Json.obj _ =>
        if fitroomProgressOk j then
          match j.lookup "status" with
          | some (Json.str "COMPLETED") => PollStep.completed j
          | some (Json.str "FAILED") => PollStep.failed j
          | _ => PollStep.next
        else PollStep.next
      | _ => PollStep.next
    else PollStep.next

/-- `FitroomClient._poll_for_result`: up to `fuel` attempts, each preceded
by a 2 s sleep; `COMPLETED` fetches the signed download URL (a transport
error or an undecodable download is swallowed as transient, a non-200
download is a terminal download failure, a missing or falsy URL is a
terminal poll failure, a truthy non-string URL raises inside `requests` and
is swallowed as transient); `FAILED` is a terminal poll failure; exhausting
the ceiling is a timeout failure. -/
def fitroomPoll (net : Nat → NetResult) (url : String) :
    Nat → Nat → List Effect → TryOnResult × List Effect
  | 0, _, tr => (TryOnResult.failure Stage.timeout fitroomTimeoutMsg, tr)
  | fuel + 1, k, tr =>
    let tr2 := tr ++ [Effect.sleep 2, Effect.get url]
    match fitroomClassify (net k) with
    | PollStep.next => fitroomPoll net url fuel (k + 1) tr2
    | PollStep.failed j =>
      (TryOnResult.failure Stage.poll
        ("Fitroom API 処理エラー: " ++ jsonGetRender j "error" "処理に失敗しました"), tr2)
    | PollStep.completed j =>
      match j.lookup "download_signed_url" with
      | some (Json.str u) =>
        if u.isEmpty then
          (TryOnResult.failure Stage.poll "結果画像のURLが取得できませんでした。", tr2)
        else
          let tr3 := tr2 ++ [Effect.get u]
          (match net (k + 1) with
           | NetResult.ok ir =>
             if ir.statusCode = 200 then
               match ir.embeddedImage with
               | some img => (TryOnResult.success img, tr3)
               | none => fitroomPoll net url fuel (k + 2) tr3
             else
               (TryOnResult.failure Stage.download
                 ("結果画像のダウンロードに失敗: " ++ toString ir.statusCode), tr3)
           | _ => fitroomPoll net url fuel (k + 2) tr3)
      | some v =>
        if jsonTruthy v then fitroomPoll net url fuel (k + 1) tr2
        else (TryOnResult.failure Stage.poll "結果画像のURLが取得できませんでした。", tr2)
      | none => (TryOnResult.failure Stage.poll "結果画像のURLが取得できませんでした。", tr2)

/-- Effects of `n` consecutive unanswered Fitroom poll attempts. -/
def fitroomPollTrace (url : String) : Nat → List Effect
  | 0 => []
  | n + 1 => Effect.sleep 2 :: Effect.get url :: fitroomPollTrace url n

/-- Python `s.startswith(pre)`, computed on the character lists. -/
def pyStartsWith (s pre : String) : Bool :=
  List.isPrefixOf pre.data s.data

/-- Handling of the person-image check result inside `generate`: `some` is
an early failure return, `none` continues.  Matches the
`if check_images:` block of `FitroomClient.generate` for the model image:
only a truthy object with falsy `is_good` and a string `error_code`
starting with `'400'` blocks; a non-object truthy result, a non-string
`error_code`, or a non-container `good_clothes_types` raises into the
generic handler; every other shape only warns. -/
def fitroomModelCheckStep (clothType : String) (r : NetResult) : Option TryOnResult :=
  match fitroomCheckResult r with
  | none => none
  | some j =>
    if jsonTruthy j then
      match j with
      | Json.obj _ =>
        if jsonTruthy ((j.lookup "is_good").getD (Json.bool false)) then
          if clothType = "combo" then none
          else if pyInOk ((j.lookup "good_clothes_types").getD (Json.arr [])) then none
          else some (TryOnResult.failure Stage.submit fitroomGenericMsg)
        else
          match (j.lookup "error_code").getD (Json.str "unknown") with
          | Json.str s =>
            if pyStartsWith s "400" then
              some (TryOnResult.failure Stage.validation
                "モデル画像が使用できません。別の画像をお試しください。")
            else none
          | _ => some (TryOnResult.failure Stage.submit fitroomGenericMsg)
      | _ => some (TryOnResult.failure Stage.submit fitroomGenericMsg)
    else none

/-- Handling of the garment-image check result inside `generate`: it never
blocks; only a truthy non-object result raises into the generic handler. -/
def fitroomClothesCheckStep (r : NetResult) : Option TryOnResult :=
  match fitroomCheckResult r with
  | none => none
  | some j =>
    if jsonTruthy j then
      match j with
      | Json.obj _ => none
      | _ => some (TryOnResult.failure Stage.submit fitroomGenericMsg)
    else none

/-- The optional pre-submission image-check phase of
`FitroomClient.generate`: person-image check (network call 0), and unless
that returned early, garment-image check (network call 1).  Returns the
early failure (if any) and the effects performed. -/
def fitroomCheckPhase (clothType : String) (net : Nat → NetResult) :
    Option TryOnResult × List Effect :=
  match fitroomModelCheckStep clothType (net 0) with
  | some r => (some r, [fitroomCheckModelEffect])
  | none =>
    (fitroomClothesCheckStep (net 1), [fitroomCheckModelEffect, fitroomCheckClothesEffect])

/-- Task submission and polling of `FitroomClient.generate`, entered after
the (possibly skipped) image-check phase; `k` is the index of the next
network call and `tr` the effects performed so far.  The credential was
already checked by `generate`. -/
def fitroomCreateEffect (args : FitroomArgs) : Effect :=
  Effect.postMultipart fitroomTasksUrl
    (["model_image", "cloth_image"] ++
      (if args.clothType = "combo" ∧ args.lowerClothImage.isSome then ["lower_cloth_image"] else []))
    [("cloth_type", args.clothType)]

def fitroomAfterCheck (args : FitroomArgs) (net : Nat → NetResult) (k : Nat)
    (tr : List Effect) : TryOnResult × List Effect :=
  let tr := tr ++ [fitroomCreateEffect args]
  match fitroomCreateTask (net k) with
  | Except.error m => (TryOnResult.failure Stage.submit m, tr)
  | Except.ok j =>
    if jsonTruthy j then
      match j with
      | Json.obj _ =>
        match j.lookup "task_id" with
        | some tid =>
          if jsonTruthy tid then
            fitroomPoll net (fitroomTasksUrl ++ "/" ++ Json.render tid) 60 (k + 1) tr
          else (TryOnResult.failure Stage.submit "タスクIDが取得できませんでした。", tr)
        | none => (TryOnResult.failure Stage.submit "タスクIDが取得できませんでした。", tr)
      | _ => (TryOnResult.failure Stage.submit fitroomGenericMsg, tr)
    else (TryOnResult.failure Stage.submit "", tr)

/-- `FitroomClient.generate`: credential guard, the optional image-check
phase, then the multipart task submission and the poll loop with ceiling
60. -/
def fitroomGenerate (apiKey : Option String) (modelImage clothImage : PImage)
    (args : FitroomArgs) (net : Nat → NetResult) : TryOnResult × List Effect :=
  if keyMissing apiKey then
    (TryOnResult.failure Stage.validation "Fitroom API キーが設定されていません。", [])
  else if args.checkImages then
    match fitroomCheckPhase args.clothType net with
    | (some r, tr) => (r, tr)
    | (none, tr) => fitroomAfterCheck args net 2 tr
  else fitroomAfterCheck args net 0 []

/-! ## app.py (orchestrator) -/

/-- The credential store loaded from the environment. -/
structure ApiConfig where
  segmindApiKey : Option String := none
  pixelcutApiKey : Option String := none
  fashnApiKey : Option String := none
  fitroomApiKey : Option String := none

/-- The selected API together with its settings dictionary as produced by
the corresponding settings panel. -/
inductive Selection where
  | tryonDiffusion (category : String) (numInferenceSteps guidanceScale seed : Int) : Selection
  | pixelcut (garmentMode : String) (preprocessGarment removeBackground waitForResult : Bool) : Selection
  | fashn (args : FashnArgs) : Selection
  | fitroom (args : FitroomArgs) : Selection

def selectionName : Selection → String
  | Selection.tryonDiffusion .. => "Try-On Diffusion"
  | Selection.pixelcut .. => "PixelCut"
  | Selection.fashn _ => "FASHN"
  | Selection.fitroom _ => "Fitroom"

/-- The `api_key_map` lookup of `main`. -/
def selectionKey (cfg : ApiConfig) : Selection → Option String
  | Selection.tryonDiffusion .. => cfg.segmindApiKey
  | Selection.pixelcut .. => cfg.pixelcutApiKey
  | Selection.fashn _ => cfg.fashnApiKey
  | Selection.fitroom _ => cfg.fitroomApiKey

/-- `api_params.get('cloth_type')`: present only in the Fitroom settings. -/
def selectionClothType : Selection → Option String
  | Selection.fitroom args => some args.clothType
  | _ => none

/-- `api_params.get('lower_cloth_image')`: present only in the Fitroom
settings (a PIL image is always truthy, so only `None` is falsy). -/
def selectionLowerCloth : Selection → Option PImage
  | Selection.fitroom args => args.lowerClothImage
  | _ => none

/-- The pre-call preprocessing of the lower garment image in `main`. -/
def preprocessSelection : Selection → Selection
  | Selection.fitroom args =>
    (match args.lowerClothImage with
     | some img => Selection.fitroom { args with lowerClothImage := some (preprocess_image img) }
     | none => Selection.fitroom args)
  | sel => sel

/-- `execute_tryon` of `app.py`: dispatch to the adapter of the selected
API with its credential and settings. -/
def execute_tryon (sel : Selection) (personImg garmentImg : PImage) (cfg : ApiConfig)
    (net : Nat → NetResult) : TryOnResult × List Effect :=
  match sel with
  | Selection.tryonDiffusion category steps gscale seed =>
    tryonDiffusionGenerate cfg.segmindApiKey personImg garmentImg category steps gscale seed net
  | Selection.pixelcut gm pg rb wf =>
    pixelcutGenerate cfg.pixelcutApiKey personImg garmentImg gm pg rb wf net
  | Selection.fashn args => fashnGenerate cfg.fashnApiKey personImg garmentImg args net
  | Selection.fitroom args => fitroomGenerate cfg.fitroomApiKey personImg garmentImg args net

/-- The run-button branch of `main` in `app.py`: both images must be
uploaded, the credential of the selected API must be present, and the
Fitroom combo mode requires a lower garment image — each violation is a
validation failure raised before any adapter call; then the images are
preprocessed and the adapter invoked. -/
def mainRun (sel : Selection) (personImg garmentImg : Option PImage) (cfg : ApiConfig)
    (net : Nat → NetResult) : TryOnResult × List Effect :=
  match personImg, garmentImg with
  | some p, some g =>
    if keyMissing (selectionKey cfg sel) then
      (TryOnResult.failure Stage.validation
        (selectionName sel ++ " APIを使用するには対応するAPI Keyが必要です。"), [])
    else if selectionClothType sel = some "combo" ∧ selectionLowerCloth sel = none then
      (TryOnResult.failure Stage.validation
        "コンボ試着を選択した場合、下半身服装画像をアップロードしてください。", [])
    else
      execute_tryon (preprocessSelection sel) (preprocess_image p) (preprocess_image g) cfg net
  | _, _ =>
    (TryOnResult.failure Stage.validation
      "人物画像と服装画像の両方をアップロードしてください。", [])

/-! ## Concrete fixtures used by witnesses and counterexamples -/

def testImg : PImage := { width := 512, height := 768, mode := "RGB" }

def testNet : Nat → NetResult := fun _ => NetResult.netTimeout

def fashnSubmitOkResp : HttpResponse :=
  { statusCode := 200, body := some (Json.obj [("id", Json.str "pred1")]) }

def fashnProcessingResp : HttpResponse :=
  { statusCode := 200, body := some (Json.obj [("status", Json.str "processing")]) }

/-- Oracle: successful FASHN submit, then every poll reports `processing`. -/
def fashnPollNet : Nat → NetResult :=
  fun i => if i = 0 then NetResult.ok fashnSubmitOkResp else NetResult.ok fashnProcessingResp

def fashnMalformedCompletedResp : HttpResponse :=
  { statusCode := 200,
    body := some (Json.obj [("status", Json.str "completed"), ("output", Json.arr [])]) }

/-- Oracle: successful FASHN submit, then a `completed` poll response whose
`output` is an empty list. -/
def fashnMalformedNet : Nat → NetResult :=
  fun i => if i = 0 then NetResult.ok fashnSubmitOkResp else NetResult.ok fashnMalformedCompletedResp

def fitroomTaskOkResp : HttpResponse :=
  { statusCode := 200, body := some (Json.obj [("task_id", Json.str "task1")]) }

def fitroomProcessingResp : HttpResponse :=
  { statusCode := 200,
    body := some (Json.obj [("status", Json.str "PROCESSING"), ("progress", Json.num 10)]) }

/-- Oracle: successful Fitroom task creation, then every poll reports
`PROCESSING`. -/
def fitroomPollNet : Nat → NetResult :=
  fun i => if i = 0 then NetResult.ok fitroomTaskOkResp else NetResult.ok fitroomProcessingResp

/-- The oracle `net` with the response of call `i` replaced by `r`. -/
def netOverride (net : Nat → NetResult) (i : Nat) (r : NetResult) : Nat → NetResult :=
  fun k => if k = i then r else net k

def pixelcut201Resp : HttpResponse :=
  { statusCode := 201, body := some (Json.obj [("result_url", Json.str "https://r")]) }

/-- Oracle: the PixelCut submit answers 201 (a 2xx status that is not 200)
with a body carrying a `result_url`. -/
def pixelcut201Net : Nat → NetResult := fun _ => NetResult.ok pixelcut201Resp

def pixelcutOkResp : HttpResponse :=
  { statusCode := 200, body := some (Json.obj [("result_url", Json.str "https://cdn/result.jpg")]) }

def pixelcut404Resp : HttpResponse := { statusCode := 404 }

/-- Oracle: PixelCut submit succeeds with a `result_url`, the result GET
answers 404. -/
def pixelcutDlNet : Nat → NetResult :=
  fun i => if i = 0 then NetResult.ok pixelcutOkResp else NetResult.ok pixelcut404Resp

def pixelcut202Resp : HttpResponse :=
  { statusCode := 202, body := some (Json.obj [("job_id", Json.str "j1")]) }

/-- Oracle: the PixelCut submit answers 202 (accepted / queued). -/
def pixelcut202Net : Nat → NetResult := fun _ => NetResult.ok pixelcut202Resp

def pixelcutDetailResp : HttpResponse :=
  { statusCode := 400, body := some (Json.obj [("detail", Json.str "boom")]), text := "raw-body" }

/-- Oracle: the PixelCut submit answers 400 with an error body whose only
field is `detail`. -/
def pixelcutDetailNet : Nat → NetResult := fun _ => NetResult.ok pixelcutDetailResp

/-- A negative Fitroom person-image check result with the given
`error_code`. -/
def fitroomNegCheckResp (s : String) : HttpResponse :=
  { statusCode := 200,
    body := some (Json.obj [("is_good", Json.bool false), ("error_code", Json.str s)]) }

def fitroomGoodCheckResp : HttpResponse :=
  { statusCode := 200, body := some (Json.obj [("is_good", Json.bool true)]) }

def fitroomClothNegResp : HttpResponse :=
  { statusCode := 200,
    body := some (Json.obj [("is_clothes", Json.bool false), ("clothes_type", Json.str "lower")]) }

def fitroomClothGoodResp : HttpResponse :=
  { statusCode := 200,
    body := some (Json.obj [("is_clothes", Json.bool true), ("clothes_type", Json.str "upper")]) }

def fitroomFailedResp : HttpResponse :=
  { statusCode := 200,
    body := some (Json.obj [("status", Json.str "FAILED"), ("error", Json.str "boom")]) }

/-- Oracle: negative person check with the 4xx code `401`, positive garment
check, successful task creation, then `FAILED`. -/
def fitroomC6Net : Nat → NetResult := fun i =>
  if i = 0 then NetResult.ok (fitroomNegCheckResp "401")
  else if i = 1 then NetResult.ok fitroomClothGoodResp
  else if i = 2 then NetResult.ok fitroomTaskOkResp
  else NetResult.ok fitroomFailedResp

/-- Oracle: every call answers the negative person check with code `4001`. -/
def fitroomNeg4001Net : Nat → NetResult := fun _ => NetResult.ok (fitroomNegCheckResp "4001")

def fitroomEmptyBodyResp : HttpResponse :=
  { statusCode := 200, body := some (Json.obj []) }

/-- Oracle: the Fitroom task creation answers 200 whose parsed JSON body is
the empty (falsy) dict. -/
def fitroomEmptyBodyNet : Nat → NetResult := fun _ => NetResult.ok fitroomEmptyBodyResp

/-! ## Theorems -/

/-- Dimension behaviour of `preprocess_image`: closed form for the resulting
width and height. -/
theorem preprocess_dims (img : PImage) :
    (preprocess_image img).width =
      (if img.width > 1024 ∨ img.height > 1024 then
        (if img.width > img.height then 1024 else img.width * 1024 / img.height)
       else img.width) ∧
    (preprocess_image img).height =
      (if img.width > 1024 ∨ img.height > 1024 then
        (if img.width > img.height then img.height * 1024 / img.width else 1024)
       else img.height) := by
  unfold preprocess_image
  by_cases h : img.width > 1024 ∨ img.height > 1024 <;>
    by_cases h2 : img.width > img.height <;>
      simp only [h, h2, if_true, if_false, ite_true, ite_false] <;> split <;> simp

/-- Claim C9: `preprocess_image` caps both dimensions at 1024; an image
already within 1024×1024 keeps its exact pixel dimensions; when a resize
occurs, the longer side becomes 1024 and the shorter side is scaled by the
same ratio, rounded down to an integer. -/
theorem c9_preprocess_image_dims (img : PImage) :
    (preprocess_image img).width ≤ 1024 ∧
    (preprocess_image img).height ≤ 1024 ∧
    (img.width ≤ 1024 → img.height ≤ 1024 →
      (preprocess_image img).width = img.width ∧
      (preprocess_image img).height = img.height) ∧
    ((img.width > 1024 ∨ img.height > 1024) →
      (if img.width > img.height then
        (preprocess_image img).width = 1024 ∧
        (preprocess_image img).height = img.height * 1024 / img.width
       else
        (preprocess_image img).width = img.width * 1024 / img.height ∧
        (preprocess_image img).height = 1024)) := by
  obtain ⟨hw, hh⟩ := preprocess_dims img
  by_cases hbig : img.width > 1024 ∨ img.height > 1024
  · by_cases hwh : img.width > img.height
    · have hw0 : 0 < img.width := by omega
      have hle : img.height * 1024 / img.width ≤ 1024 := by
        have h1 : img.height * 1024 ≤ img.width * 1024 :=
          Nat.mul_le_mul_right 1024 (Nat.le_of_lt hwh)
        have h2 : img.height * 1024 / img.width ≤ img.width * 1024 / img.width :=
          Nat.div_le_div_right h1
        rwa [Nat.mul_div_cancel_left 1024 hw0] at h2
      refine ⟨?_, ?_, ?_, ?_⟩
      · rw [hw]; simp [hbig, hwh]
      · rw [hh]; simp [hbig, hwh]; exact hle
      · intro hv hv2; omega
      · intro _; rw [if_pos hwh]
        exact ⟨by rw [hw]; simp [hbig, hwh], by rw [hh]; simp [hbig, hwh]⟩
    · have hh0 : 0 < img.height := by omega
      have hle : img.width * 1024 / img.height ≤ 1024 := by
        have h1 : img.width * 1024 ≤ img.height * 1024 :=
          Nat.mul_le_mul_right 1024 (by omega)
        have h2 : img.width * 1024 / img.height ≤ img.height * 1024 / img.height :=
          Nat.div_le_div_right h1
        rwa [Nat.mul_div_cancel_left 1024 hh0] at h2
      refine ⟨?_, ?_, ?_, ?_⟩
      · rw [hw]; simp [hbig, hwh]; exact hle
      · rw [hh]; simp [hbig, hwh]
      · intro hv hv2; omega
      · intro _; rw [if_neg hwh]
        exact ⟨by rw [hw]; simp [hbig, hwh], by rw [hh]; simp [hbig, hwh]⟩
  · refine ⟨?_, ?_, ?_, ?_⟩
    · rw [hw]; simp [hbig]; omega
    · rw [hh]; simp [hbig]; omega
    · intro _ _; exact ⟨by rw [hw]; simp [hbig], by rw [hh]; simp [hbig]⟩
    · intro hv; exact absurd hv hbig

/-- Witness for C9 at a concrete oversized image. -/
theorem c9_preprocess_image_dims_witness :
    (2048 > 1024 ∨ 1536 > 1024) ∧
    (preprocess_image { width := 2048, height := 1536, mode := "RGBA" }).width = 1024 ∧
    (preprocess_image { width := 2048, height := 1536, mode := "RGBA" }).height = 768 := by
  have h := c9_preprocess_image_dims { width := 2048, height := 1536, mode := "RGBA" }
  have h4 := h.2.2.2 (by left; decide)
  rw [if_pos (by decide)] at h4
  exact ⟨by decide, h4.1, by rw [h4.2]; decide⟩

/-- Claim C1: with an absent credential (None or empty), each of the four
adapters fails at the validation stage with its missing-key message and
issues no network call (empty effect trace). -/
theorem c1_missing_credential (key : Option String) (hkey : keyMissing key = true)
    (p g : PImage) (category : String) (steps gscale seed : Int)
    (gm : String) (pg rb wf : Bool) (fargs : FashnArgs) (ftargs : FitroomArgs)
    (net : Nat → NetResult) :
    tryonDiffusionGenerate key p g category steps gscale seed net =
      (TryOnResult.failure Stage.validation "Segmind API キーが設定されていません。", []) ∧
    pixelcutGenerate key p g gm pg rb wf net =
      (TryOnResult.failure Stage.validation "PixelCut API キーが設定されていません。", []) ∧
    fashnGenerate key p g fargs net =
      (TryOnResult.failure Stage.validation "FASHN API キーが設定されていません。", []) ∧
    fitroomGenerate key p g ftargs net =
      (TryOnResult.failure Stage.validation "Fitroom API キーが設定されていません。", []) := by
  refine ⟨?_, ?_, ?_, ?_⟩ <;>
    simp [tryonDiffusionGenerate, pixelcutGenerate, fashnGenerate, fitroomGenerate, hkey]

/-- Witness for C1 at the `None` credential. -/
theorem c1_missing_credential_witness :
    tryonDiffusionGenerate none testImg testImg "Upper body" 35 2 12467 testNet =
      (TryOnResult.failure Stage.validation "Segmind API キーが設定されていません。", []) ∧
    pixelcutGenerate none testImg testImg "auto" true false true testNet =
      (TryOnResult.failure Stage.validation "PixelCut API キーが設定されていません。", []) ∧
    fashnGenerate none testImg testImg {} testNet =
      (TryOnResult.failure Stage.validation "FASHN API キーが設定されていません。", []) ∧
    fitroomGenerate none testImg testImg {} testNet =
      (TryOnResult.failure Stage.validation "Fitroom API キーが設定されていません。", []) :=
  c1_missing_credential none rfl testImg testImg "Upper body" 35 2 12467 "auto" true false true {} {} testNet

/-- Counterexample to claim C4 as stated: the `tryon-v1.6` and `tryon-v1.5`
input bodies are NOT disjoint — `model_image` (like the other six common
fields) appears in both field sets. -/
theorem c4_counterexample :
    "model_image" ∈ (fashnInputs { modelVersion := "tryon-v1.6" } "m" "g").map Prod.fst ∧
    "model_image" ∈ (fashnInputs { modelVersion := "tryon-v1.5" } "m" "g").map Prod.fst := by
  constructor <;> simp [fashnInputs]

/-- Claim C4 (amended): the two `model_version` values produce structurally
different input bodies — `tryon-v1.6` yields exactly the seven common
fields, `tryon-v1.5` yields exactly those plus `moderation_level` and
`segmentation_free`; the two field lists are different (v1.6's is a proper
subset of v1.5's, so they are not disjoint), and the v1.6 body never
includes the v1.5-only fields. -/
theorem c4_version_field_sets (args : FashnArgs) (mb gb : String) :
    (args.modelVersion = "tryon-v1.6" →
      (fashnInputs args mb gb).map Prod.fst =
        ["model_image", "garment_image", "category", "mode", "garment_photo_type",
         "seed", "num_samples"]) ∧
    (args.modelVersion ≠ "tryon-v1.6" →
      (fashnInputs args mb gb).map Prod.fst =
        ["model_image", "garment_image", "category", "mode", "garment_photo_type",
         "moderation_level", "seed", "num_samples", "segmentation_free"]) ∧
    "moderation_level" ∉ (fashnInputs { args with modelVersion := "tryon-v1.6" } mb gb).map Prod.fst ∧
    "segmentation_free" ∉ (fashnInputs { args with modelVersion := "tryon-v1.6" } mb gb).map Prod.fst ∧
    (fashnInputs { args with modelVersion := "tryon-v1.6" } mb gb).map Prod.fst ⊆
      (fashnInputs { args with modelVersion := "tryon-v1.5" } mb gb).map Prod.fst ∧
    (fashnInputs { args with modelVersion := "tryon-v1.6" } mb gb).map Prod.fst ≠
      (fashnInputs { args with modelVersion := "tryon-v1.5" } mb gb).map Prod.fst := by
  refine ⟨fun h => by simp [fashnInputs, h], fun h => by simp [fashnInputs, h], ?_, ?_, ?_, ?_⟩ <;>
    simp [fashnInputs]

/-- Witness for C4 (amended) at the default settings. -/
theorem c4_version_field_sets_witness :
    (fashnInputs { modelVersion := "tryon-v1.6" } "m" "g").map Prod.fst =
      ["model_image", "garment_image", "category", "mode", "garment_photo_type",
       "seed", "num_samples"] ∧
    (fashnInputs { modelVersion := "tryon-v1.5" } "m" "g").map Prod.fst =
      ["model_image", "garment_image", "category", "mode", "garment_photo_type",
       "moderation_level", "seed", "num_samples", "segmentation_free"] :=
  ⟨(c4_version_field_sets { modelVersion := "tryon-v1.6" } "m" "g").1 rfl,
   (c4_version_field_sets { modelVersion := "tryon-v1.5" } "m" "g").2.1 (by decide)⟩

/-- Claim C8: selecting the Fitroom combo mode without a lower garment image
is rejected by the orchestrator at the validation stage with an empty
effect trace (no adapter call, no network activity). -/
theorem c8_combo_requires_lower_garment (args : FitroomArgs) (p g : Option PImage)
    (cfg : ApiConfig) (net : Nat → NetResult)
    (hc : args.clothType = "combo") (hl : args.lowerClothImage = none) :
    (mainRun (Selection.fitroom args) p g cfg net).2 = [] ∧
    ∃ msg, (mainRun (Selection.fitroom args) p g cfg net).1 =
      TryOnResult.failure Stage.validation msg := by
  cases p with
  | none => exact ⟨rfl, _, rfl⟩
  | some p' =>
    cases g with
    | none => exact ⟨rfl, _, rfl⟩
    | some g' =>
      cases hk : keyMissing (selectionKey cfg (Selection.fitroom args)) with
      | true => simp [mainRun, hk]
      | false =>
        have hcombo : selectionClothType (Selection.fitroom args) = some "combo" ∧
            selectionLowerCloth (Selection.fitroom args) = none := by
          simp [selectionClothType, selectionLowerCloth, hc, hl]
        simp [mainRun, hk, hcombo]

/-- Witness for C8 at a concrete combo selection with both images uploaded
and the credential present. -/
theorem c8_combo_requires_lower_garment_witness :
    (mainRun (Selection.fitroom { clothType := "combo" }) (some testImg) (some testImg)
      { fitroomApiKey := some "key" } testNet).2 = [] ∧
    ∃ msg, (mainRun (Selection.fitroom { clothType := "combo" }) (some testImg) (some testImg)
      { fitroomApiKey := some "key" } testNet).1 = TryOnResult.failure Stage.validation msg :=
  c8_combo_requires_lower_garment { clothType := "combo" } (some testImg) (some testImg)
    { fitroomApiKey := some "key" } testNet rfl rfl

/-- A JSON object in which a key is found is a non-empty dict, hence truthy. -/
theorem truthyObj_of_assocFind {fs : List (String × Json)} {k : String} {v : Json}
    (h : assocFind fs k = some v) : jsonTruthy (Json.obj fs) = true := by
  cases fs with
  | nil => simp [assocFind] at h
  | cons hd tl => simp [jsonTruthy]

/-- If every remaining FASHN poll outcome classifies as non-terminal, the
loop runs to its ceiling and times out, emitting exactly one sleep and one
status GET per attempt. -/
theorem fashnPoll_all_next (net : Nat → NetResult) (url : String) :
    ∀ (fuel k : Nat) (tr : List Effect),
      (∀ i, k ≤ i → fashnClassify (net i) = PollStep.next) →
      fashnPoll net url fuel k tr =
        (TryOnResult.failure Stage.timeout fashnTimeoutMsg, tr ++ fashnPollTrace url fuel) := by
  intro fuel
  induction fuel with
  | zero => intro k tr _; simp [fashnPoll, fashnPollTrace]
  | succ n ih =>
    intro k tr h
    have hk := h k (Nat.le_refl k)
    have step : fashnPoll net url (n + 1) k tr =
        fashnPoll net url n (k + 1) (tr ++ [Effect.sleep 3, Effect.get url]) := by
      simp only [fashnPoll, hk]
    rw [step, ih (k + 1) _ (fun i hi => h i (Nat.le_of_succ_le hi))]
    simp [fashnPollTrace, List.append_assoc]

/-- If every remaining Fitroom poll outcome classifies as non-terminal, the
loop runs to its ceiling and times out, emitting exactly one sleep and one
status GET per attempt. -/
theorem fitroomPoll_all_next (net : Nat → NetResult) (url : String) :
    ∀ (fuel k : Nat) (tr : List Effect),
      (∀ i, k ≤ i → fitroomClassify (net i) = PollStep.next) →
      fitroomPoll net url fuel k tr =
        (TryOnResult.failure Stage.timeout fitroomTimeoutMsg, tr ++ fitroomPollTrace url fuel) := by
  intro fuel
  induction fuel with
  | zero => intro k tr _; simp [fitroomPoll, fitroomPollTrace]
  | succ n ih =>
    intro k tr h
    have hk := h k (Nat.le_refl k)
    have step : fitroomPoll net url (n + 1) k tr =
        fitroomPoll net url n (k + 1) (tr ++ [Effect.sleep 2, Effect.get url]) := by
      simp only [fitroomPoll, hk]
    rw [step, ih (k + 1) _ (fun i hi => h i (Nat.le_of_succ_le hi))]
    simp [fitroomPollTrace, List.append_assoc]

theorem pollGetCount_fashnPollTrace (u : String) :
    ∀ n, pollGetCount u (fashnPollTrace u n) = n := by
  intro n
  induction n with
  | zero => rfl
  | succ m ih =>
    simp [fashnPollTrace, pollGetCount, List.countP_cons] at ih ⊢
    omega

theorem pollGetCount_fitroomPollTrace (u : String) :
    ∀ n, pollGetCount u (fitroomPollTrace u n) = n := by
  intro n
  induction n with
  | zero => rfl
  | succ m ih =>
    simp [fitroomPollTrace, pollGetCount, List.countP_cons] at ih ⊢
    omega

theorem pollGetCount_cons_post (u v : String) (b : Json) (tr : List Effect) :
    pollGetCount u (Effect.post v b :: tr) = pollGetCount u tr := by
  simp [pollGetCount, List.countP_cons]

theorem pollGetCount_cons_postMultipart (u v : String) (parts : List String)
    (form : List (String × String)) (tr : List Effect) :
    pollGetCount u (Effect.postMultipart v parts form :: tr) = pollGetCount u tr := by
  simp [pollGetCount, List.countP_cons]

/-- A FASHN submit that yields 200 with a JSON object carrying an `id`
hands over to the poll loop with ceiling 40. -/
theorem fashnGenerate_to_poll (key : Option String) (m g : PImage) (args : FashnArgs)
    (net : Nat → NetResult) (resp : HttpResponse) (fs : List (String × Json)) (idv : Json)
    (hkey : keyMissing key = false) (h0 : net 0 = NetResult.ok resp)
    (hs : resp.statusCode = 200) (hb : resp.body = some (Json.obj fs))
    (hid : assocFind fs "id" = some idv) :
    fashnGenerate key m g args net =
      fashnPoll net (fashnStatusUrl ++ "/" ++ Json.render idv) 40 1
        [Effect.post fashnRunUrl
          (fashnRunData args (fashnPreparedData m true) (fashnPreparedData g false))] := by
  simp [fashnGenerate, hkey, fashnPrepareImage, h0, hs, hb, jsonMember, Json.lookup, hid,
    jsonSubscript]

/-- A Fitroom task creation (checks disabled) that yields 200 with a JSON
object carrying a truthy `task_id` hands over to the poll loop with ceiling
60. -/
theorem fitroomGenerate_to_poll (key : Option String) (m c : PImage) (args : FitroomArgs)
    (net : Nat → NetResult) (resp : HttpResponse) (fs : List (String × Json)) (tid : Json)
    (hkey : keyMissing key = false) (hchk : args.checkImages = false)
    (h0 : net 0 = NetResult.ok resp) (hs : resp.statusCode = 200)
    (hb : resp.body = some (Json.obj fs)) (htid : assocFind fs "task_id" = some tid)
    (htr : jsonTruthy tid = true) :
    fitroomGenerate key m c args net =
      fitroomPoll net (fitroomTasksUrl ++ "/" ++ Json.render tid) 60 1
        [fitroomCreateEffect args] := by
  have htru := truthyObj_of_assocFind htid
  simp [fitroomGenerate, hkey, hchk, fitroomAfterCheck, fitroomCreateTask, h0, hs, hb,
    Json.lookup, htid, htru, htr]

/-- Claim C3: for both submit-then-poll adapters, if every poll response up
to the ceiling is non-terminal (or a transient error), `generate` returns
the timeout failure and the effect trace contains exactly the ceiling count
of poll status GETs — 40 for FASHN (3 s sleeps), 60 for Fitroom (2 s
sleeps), as the trace equations exhibit. -/
theorem c3_poll_ceiling_timeout :
    (∀ (key : Option String) (m g : PImage) (args : FashnArgs) (net : Nat → NetResult)
       (resp : HttpResponse) (fs : List (String × Json)) (idv : Json),
      keyMissing key = false → net 0 = NetResult.ok resp → resp.statusCode = 200 →
      resp.body = some (Json.obj fs) → assocFind fs "id" = some idv →
      (∀ i, 1 ≤ i → fashnClassify (net i) = PollStep.next) →
      fashnGenerate key m g args net =
        (TryOnResult.failure Stage.timeout fashnTimeoutMsg,
         Effect.post fashnRunUrl
             (fashnRunData args (fashnPreparedData m true) (fashnPreparedData g false)) ::
           fashnPollTrace (fashnStatusUrl ++ "/" ++ Json.render idv) 40) ∧
      pollGetCount (fashnStatusUrl ++ "/" ++ Json.render idv) (fashnGenerate key m g args net).2 = 40) ∧
    (∀ (key : Option String) (m c : PImage) (args : FitroomArgs) (net : Nat → NetResult)
       (resp : HttpResponse) (fs : List (String × Json)) (tid : Json),
      keyMissing key = false → args.checkImages = false → net 0 = NetResult.ok resp →
      resp.statusCode = 200 → resp.body = some (Json.obj fs) →
      assocFind fs "task_id" = some tid → jsonTruthy tid = true →
      (∀ i, 1 ≤ i → fitroomClassify (net i) = PollStep.next) →
      fitroomGenerate key m c args net =
        (TryOnResult.failure Stage.timeout fitroomTimeoutMsg,
         fitroomCreateEffect args ::
           fitroomPollTrace (fitroomTasksUrl ++ "/" ++ Json.render tid) 60) ∧
      pollGetCount (fitroomTasksUrl ++ "/" ++ Json.render tid) (fitroomGenerate key m c args net).2 = 60) := by
  constructor
  · intro key m g args net resp fs idv hkey h0 hs hb hid hnt
    have heq := fashnGenerate_to_poll key m g args net resp fs idv hkey h0 hs hb hid
    have hp := fashnPoll_all_next net (fashnStatusUrl ++ "/" ++ Json.render idv) 40 1
      [Effect.post fashnRunUrl
        (fashnRunData args (fashnPreparedData m true) (fashnPreparedData g false))]
      (fun i hi => hnt i hi)
    constructor
    · rw [heq, hp]; simp
    · rw [heq, hp]
      simp [pollGetCount_cons_post, pollGetCount_fashnPollTrace]
  · intro key m c args net resp fs tid hkey hchk h0 hs hb htid htr hnt
    have heq := fitroomGenerate_to_poll key m c args net resp fs tid hkey hchk h0 hs hb htid htr
    have hp := fitroomPoll_all_next net (fitroomTasksUrl ++ "/" ++ Json.render tid) 60 1
      [fitroomCreateEffect args] (fun i hi => hnt i hi)
    constructor
    · rw [heq, hp]; simp
    · rw [heq, hp]
      simp [fitroomCreateEffect, pollGetCount_cons_postMultipart, pollGetCount_fitroomPollTrace]

/-- Witness for C3 at oracles that always answer `processing` /
`PROCESSING`. -/
theorem c3_poll_ceiling_timeout_witness :
    fashnGenerate (some "k") testImg testImg {} fashnPollNet =
      (TryOnResult.failure Stage.timeout fashnTimeoutMsg,
       Effect.post fashnRunUrl
           (fashnRunData {} (fashnPreparedData testImg true) (fashnPreparedData testImg false)) ::
         fashnPollTrace (fashnStatusUrl ++ "/" ++ Json.render (Json.str "pred1")) 40) ∧
    fitroomGenerate (some "k") testImg testImg { checkImages := false } fitroomPollNet =
      (TryOnResult.failure Stage.timeout fitroomTimeoutMsg,
       fitroomCreateEffect { checkImages := false } ::
         fitroomPollTrace (fitroomTasksUrl ++ "/" ++ Json.render (Json.str "task1")) 60) := by
  constructor
  · exact (c3_poll_ceiling_timeout.1 (some "k") testImg testImg {} fashnPollNet
      fashnSubmitOkResp [("id", Json.str "pred1")] (Json.str "pred1")
      rfl rfl rfl rfl rfl
      (fun i hi => by
        have hne : i ≠ 0 := by omega
        simp only [fashnPollNet, if_neg hne]
        rfl)).1
  · exact (c3_poll_ceiling_timeout.2 (some "k") testImg testImg { checkImages := false }
      fitroomPollNet fitroomTaskOkResp [("task_id", Json.str "task1")] (Json.str "task1")
      rfl rfl rfl rfl rfl rfl rfl
      (fun i hi => by
        have hne : i ≠ 0 := by omega
        simp only [fitroomPollNet, if_neg hne]
        rfl)).1

/-- A `completed` FASHN poll response whose `output` is not a non-empty
list terminates the loop at this attempt with one of the two malformed-
output failures, performing no download GET. -/
theorem fashnPoll_completed_malformed (net : Nat → NetResult) (url : String)
    (fuel k : Nat) (tr : List Effect) (j : Json)
    (hcl : fashnClassify (net k) = PollStep.completed j)
    (hout : ∀ u rest, Json.lookup j "output" ≠ some (Json.arr (u :: rest))) :
    fashnPoll net url (fuel + 1) k tr =
      (TryOnResult.failure Stage.poll "結果画像のURLが取得できませんでした。",
        tr ++ [Effect.sleep 3, Effect.get url]) ∨
    fashnPoll net url (fuel + 1) k tr =
      (TryOnResult.failure Stage.poll "処理は完了しましたが、結果画像が見つかりませんでした。",
        tr ++ [Effect.sleep 3, Effect.get url]) := by
  cases hlo : Json.lookup j "output" with
  | none => right; simp [fashnPoll, hcl, hlo]
  | some out =>
    cases out with
    | arr xs =>
      cases xs with
      | nil => right; simp [fashnPoll, hcl, hlo, jsonTruthy]
      | cons u rest => exact absurd hlo (hout u rest)
    | null => right; simp [fashnPoll, hcl, hlo, jsonTruthy]
    | bool b =>
      cases b with
      | false => right; simp [fashnPoll, hcl, hlo, jsonTruthy]
      | true => left; simp [fashnPoll, hcl, hlo, jsonTruthy]
    | num n =>
      by_cases hn : n = 0
      · right; simp [fashnPoll, hcl, hlo, jsonTruthy, hn]
      · left; simp [fashnPoll, hcl, hlo, jsonTruthy, bne, hn]
    | str s =>
      by_cases hsx : s.isEmpty
      · right; simp [fashnPoll, hcl, hlo, jsonTruthy, hsx]
      · left; simp [fashnPoll, hcl, hlo, jsonTruthy, hsx]
    | obj fs2 =>
      cases fs2 with
      | nil => right; simp [fashnPoll, hcl, hlo, jsonTruthy]
      | cons a l => left; simp [fashnPoll, hcl, hlo, jsonTruthy]

/-- Claim C10: a FASHN poll response with status `completed` whose `output`
is missing, empty/falsy, or not a non-empty list makes `generate` fail
immediately: the trace stops at that single poll GET — no download GET, no
further poll attempts. -/
theorem c10_malformed_completed_is_terminal (key : Option String) (m g : PImage)
    (args : FashnArgs) (net : Nat → NetResult) (resp : HttpResponse)
    (fs : List (String × Json)) (idv : Json) (r1 : HttpResponse) (j : Json)
    (hkey : keyMissing key = false) (h0 : net 0 = NetResult.ok resp)
    (hs : resp.statusCode = 200) (hb : resp.body = some (Json.obj fs))
    (hid : assocFind fs "id" = some idv)
    (h1 : net 1 = NetResult.ok r1) (hs1 : r1.statusCode = 200) (hb1 : r1.body = some j)
    (hst : Json.lookup j "status" = some (Json.str "completed"))
    (hout : ∀ u rest, Json.lookup j "output" ≠ some (Json.arr (u :: rest))) :
    ((fashnGenerate key m g args net).1 =
        TryOnResult.failure Stage.poll "結果画像のURLが取得できませんでした。" ∨
     (fashnGenerate key m g args net).1 =
        TryOnResult.failure Stage.poll "処理は完了しましたが、結果画像が見つかりませんでした。") ∧
    (fashnGenerate key m g args net).2 =
      [Effect.post fashnRunUrl
         (fashnRunData args (fashnPreparedData m true) (fashnPreparedData g false)),
       Effect.sleep 3, Effect.get (fashnStatusUrl ++ "/" ++ Json.render idv)] := by
  have heq := fashnGenerate_to_poll key m g args net resp fs idv hkey h0 hs hb hid
  have hcl : fashnClassify (net 1) = PollStep.completed j := by
    simp [fashnClassify, h1, hs1, hb1, hst]
  have hd := fashnPoll_completed_malformed net (fashnStatusUrl ++ "/" ++ Json.render idv)
    39 1 [Effect.post fashnRunUrl
      (fashnRunData args (fashnPreparedData m true) (fashnPreparedData g false))] j hcl hout
  have h40 : (40 : Nat) = 39 + 1 := rfl
  rw [heq, h40]
  cases hd with
  | inl h => rw [h]; exact ⟨Or.inl rfl, by simp⟩
  | inr h => rw [h]; exact ⟨Or.inr rfl, by simp⟩

/-- Witness for C10 at a `completed` response with an empty `output` list. -/
theorem c10_malformed_completed_is_terminal_witness :
    ((fashnGenerate (some "k") testImg testImg {} fashnMalformedNet).1 =
        TryOnResult.failure Stage.poll "結果画像のURLが取得できませんでした。" ∨
     (fashnGenerate (some "k") testImg testImg {} fashnMalformedNet).1 =
        TryOnResult.failure Stage.poll "処理は完了しましたが、結果画像が見つかりませんでした。") ∧
    (fashnGenerate (some "k") testImg testImg {} fashnMalformedNet).2 =
      [Effect.post fashnRunUrl
         (fashnRunData {} (fashnPreparedData testImg true) (fashnPreparedData testImg false)),
       Effect.sleep 3, Effect.get (fashnStatusUrl ++ "/" ++ Json.render (Json.str "pred1"))] :=
  c10_malformed_completed_is_terminal (some "k") testImg testImg {} fashnMalformedNet
    fashnSubmitOkResp [("id", Json.str "pred1")] (Json.str "pred1")
    fashnMalformedCompletedResp
    (Json.obj [("status", Json.str "completed"), ("output", Json.arr [])])
    rfl rfl rfl rfl rfl rfl rfl rfl rfl
    (fun u rest h => by simp [Json.lookup, assocFind] at h)

/-- Counterexample to claim C2 as stated: not every failure outcome carries
a human-readable reason.  When Fitroom task creation answers 200 with a
falsy parsed body (the empty dict), `generate` returns `None` without
displaying any message (`fitroom.py`, the `if not task_result:` branch) —
embedded as a failure whose reason is the empty string. -/
theorem c2_counterexample :
    fitroomGenerate (some "k") testImg testImg { checkImages := false } fitroomEmptyBodyNet =
      (TryOnResult.failure Stage.submit "", [fitroomCreateEffect { checkImages := false }]) ∧
    ("" : String).isEmpty = true := ⟨rfl, rfl⟩

/-- Claim C2 (amended): every failure outcome is a `Failure` value carrying
a stage and a reason; each adapter's failure paths carry fixed non-empty
messages with one exception — Fitroom task creation answered 200 with a
falsy parsed body fails silently with an empty reason.  A network timeout
at the submit step yields each adapter's submit-stage failure, and for both
submit-then-poll adapters exhausting the polling ceiling yields the
timeout-stage failure; for both, the submit-timeout and ceiling-timeout
failures are distinguishable (different stages and different reasons). -/
theorem c2_failure_stages_distinguishable :
    (∀ (key : Option String) (m g : PImage) (category : String) (steps gscale seed : Int)
       (net : Nat → NetResult),
      keyMissing key = false → net 0 = NetResult.netTimeout →
      (tryonDiffusionGenerate key m g category steps gscale seed net).1 =
        TryOnResult.failure Stage.submit
          "Try-On Diffusion API のタイムアウトエラーです。処理に時間がかかりすぎています。") ∧
    (∀ (key : Option String) (p g : PImage) (gm : String) (pg rb wf : Bool)
       (net : Nat → NetResult),
      keyMissing key = false → net 0 = NetResult.netTimeout →
      (pixelcutGenerate key p g gm pg rb wf net).1 =
        TryOnResult.failure Stage.submit pixelcutTimeoutMsg) ∧
    (∀ (key : Option String) (m g : PImage) (args : FashnArgs) (net : Nat → NetResult),
      keyMissing key = false → net 0 = NetResult.netTimeout →
      (fashnGenerate key m g args net).1 =
        TryOnResult.failure Stage.submit fashnSubmitTimeoutMsg) ∧
    (∀ (key : Option String) (m c : PImage) (args : FitroomArgs) (net : Nat → NetResult),
      keyMissing key = false → args.checkImages = false → net 0 = NetResult.netTimeout →
      (fitroomGenerate key m c args net).1 =
        TryOnResult.failure Stage.submit fitroomCreateExcMsg) ∧
    (∀ (key : Option String) (m g : PImage) (args : FashnArgs) (net : Nat → NetResult)
       (resp : HttpResponse) (fs : List (String × Json)) (idv : Json),
      keyMissing key = false → net 0 = NetResult.ok resp → resp.statusCode = 200 →
      resp.body = some (Json.obj fs) → assocFind fs "id" = some idv →
      (∀ i, 1 ≤ i → fashnClassify (net i) = PollStep.next) →
      (fashnGenerate key m g args net).1 =
        TryOnResult.failure Stage.timeout fashnTimeoutMsg) ∧
    (∀ (key : Option String) (m c : PImage) (args : FitroomArgs) (net : Nat → NetResult)
       (resp : HttpResponse) (fs : List (String × Json)) (tid : Json),
      keyMissing key = false → args.checkImages = false → net 0 = NetResult.ok resp →
      resp.statusCode = 200 → resp.body = some (Json.obj fs) →
      assocFind fs "task_id" = some tid → jsonTruthy tid = true →
      (∀ i, 1 ≤ i → fitroomClassify (net i) = PollStep.next) →
      (fitroomGenerate key m c args net).1 =
        TryOnResult.failure Stage.timeout fitroomTimeoutMsg) ∧
    (TryOnResult.failure Stage.submit fashnSubmitTimeoutMsg ≠
       TryOnResult.failure Stage.timeout fashnTimeoutMsg ∧
     fashnSubmitTimeoutMsg ≠ fashnTimeoutMsg ∧ Stage.submit ≠ Stage.timeout) ∧
    (TryOnResult.failure Stage.submit fitroomCreateExcMsg ≠
       TryOnResult.failure Stage.timeout fitroomTimeoutMsg ∧
     fitroomCreateExcMsg ≠ fitroomTimeoutMsg) ∧
    (∀ (key : Option String) (m c : PImage) (args : FitroomArgs) (net : Nat → NetResult)
       (resp : HttpResponse) (j : Json),
      keyMissing key = false → args.checkImages = false → net 0 = NetResult.ok resp →
      resp.statusCode = 200 → resp.body = some j → jsonTruthy j = false →
      fitroomGenerate key m c args net =
        (TryOnResult.failure Stage.submit "", [fitroomCreateEffect args])) := by
  refine ⟨?_, ?_, ?_, ?_, ?_, ?_, ⟨by decide, by decide, by decide⟩, ⟨by decide, by decide⟩, ?_⟩
  · intro key m g category steps gscale seed net hkey h0
    simp [tryonDiffusionGenerate, hkey, h0]
  · intro key p g gm pg rb wf net hkey h0
    simp [pixelcutGenerate, hkey, h0]
  · intro key m g args net hkey h0
    simp [fashnGenerate, hkey, fashnPrepareImage, h0]
  · intro key m c args net hkey hchk h0
    simp [fitroomGenerate, hkey, hchk, fitroomAfterCheck, fitroomCreateTask, h0]
  · intro key m g args net resp fs idv hkey h0 hs hb hid hnt
    rw [fashnGenerate_to_poll key m g args net resp fs idv hkey h0 hs hb hid,
      fashnPoll_all_next net (fashnStatusUrl ++ "/" ++ Json.render idv) 40 1
        [Effect.post fashnRunUrl
          (fashnRunData args (fashnPreparedData m true) (fashnPreparedData g false))]
        (fun i hi => hnt i hi)]
  · intro key m c args net resp fs tid hkey hchk h0 hs hb htid htr hnt
    rw [fitroomGenerate_to_poll key m c args net resp fs tid hkey hchk h0 hs hb htid htr,
      fitroomPoll_all_next net (fitroomTasksUrl ++ "/" ++ Json.render tid) 60 1
        [fitroomCreateEffect args] (fun i hi => hnt i hi)]
  · intro key m c args net resp j hkey hchk h0 hs hb ht
    simp [fitroomGenerate, hkey, hchk, fitroomAfterCheck, fitroomCreateTask, h0, hs, hb, ht]

/-- Witness for C2 (amended): the submit-timeout oracle hits all four
adapters' submit-stage failures, the always-processing oracles hit both
ceiling timeouts, and the empty-body oracle hits the silent path. -/
theorem c2_failure_stages_distinguishable_witness :
    (tryonDiffusionGenerate (some "k") testImg testImg "Upper body" 35 2 12467 testNet).1 =
      TryOnResult.failure Stage.submit
        "Try-On Diffusion API のタイムアウトエラーです。処理に時間がかかりすぎています。" ∧
    (pixelcutGenerate (some "k") testImg testImg "auto" true false true testNet).1 =
      TryOnResult.failure Stage.submit pixelcutTimeoutMsg ∧
    (fashnGenerate (some "k") testImg testImg {} testNet).1 =
      TryOnResult.failure Stage.submit fashnSubmitTimeoutMsg ∧
    (fitroomGenerate (some "k") testImg testImg { checkImages := false } testNet).1 =
      TryOnResult.failure Stage.submit fitroomCreateExcMsg ∧
    (fashnGenerate (some "k") testImg testImg {} fashnPollNet).1 =
      TryOnResult.failure Stage.timeout fashnTimeoutMsg ∧
    (fitroomGenerate (some "k") testImg testImg { checkImages := false } fitroomPollNet).1 =
      TryOnResult.failure Stage.timeout fitroomTimeoutMsg ∧
    fitroomGenerate (some "k") testImg testImg { checkImages := false } fitroomEmptyBodyNet =
      (TryOnResult.failure Stage.submit "", [fitroomCreateEffect { checkImages := false }]) := by
  obtain ⟨h1, h2, h3, h4, h5, h6, _, _, h9⟩ := c2_failure_stages_distinguishable
  exact ⟨h1 (some "k") testImg testImg "Upper body" 35 2 12467 testNet rfl rfl,
    h2 (some "k") testImg testImg "auto" true false true testNet rfl rfl,
    h3 (some "k") testImg testImg {} testNet rfl rfl,
    h4 (some "k") testImg testImg { checkImages := false } testNet rfl rfl rfl,
    h5 (some "k") testImg testImg {} fashnPollNet fashnSubmitOkResp
      [("id", Json.str "pred1")] (Json.str "pred1") rfl rfl rfl rfl rfl
      (fun i hi => by
        have hne : i ≠ 0 := by omega
        simp only [fashnPollNet, if_neg hne]
        rfl),
    h6 (some "k") testImg testImg { checkImages := false } fitroomPollNet fitroomTaskOkResp
      [("task_id", Json.str "task1")] (Json.str "task1") rfl rfl rfl rfl rfl rfl rfl
      (fun i hi => by
        have hne : i ≠ 0 := by omega
        simp only [fitroomPollNet, if_neg hne]
        rfl),
    h9 (some "k") testImg testImg { checkImages := false } fitroomEmptyBodyNet
      fitroomEmptyBodyResp (Json.obj []) rfl rfl rfl rfl rfl rfl⟩

/-- Counterexample to claim C5 as stated: a 2xx submit response that is not
exactly 200 — here 201 — containing a `result_url` does NOT trigger a
follow-up GET; the code checks `status_code == 200`, so the run ends in a
submit-stage failure with an effect trace holding only the submit POST. -/
theorem c5_counterexample :
    pixelcutGenerate (some "k") testImg testImg "auto" true false true pixelcut201Net =
      (TryOnResult.failure Stage.submit "PixelCut API エラー: 201",
       [pixelcutPostEffect "auto" true false true]) := rfl

/-- Claim C5 (amended): a submit response with status exactly 200 whose
body carries a `result_url` triggers exactly one follow-up GET of that URL
(the effect trace is the submit POST followed by that single GET, whatever
the GET returns); if the GET returns a non-200 status the result is a
download-stage failure; a 202 submit status is the unimplemented async path
and fails at the submit stage with no result GET. -/
theorem c5_pixelcut_result_fetch (key : Option String) (p g : PImage) (gm : String)
    (pg rb wf : Bool) (net : Nat → NetResult) (resp : HttpResponse)
    (fs : List (String × Json)) (u : String)
    (hkey : keyMissing key = false) (h0 : net 0 = NetResult.ok resp) :
    (resp.statusCode = 200 → resp.body = some (Json.obj fs) →
      assocFind fs "result_url" = some (Json.str u) →
      (pixelcutGenerate key p g gm pg rb wf net).2 =
        [pixelcutPostEffect gm pg rb wf, Effect.get u] ∧
      (∀ ir, net 1 = NetResult.ok ir → ir.statusCode ≠ 200 →
        (pixelcutGenerate key p g gm pg rb wf net).1 =
          TryOnResult.failure Stage.download
            ("結果画像のダウンロードに失敗しました: " ++ toString ir.statusCode))) ∧
    (resp.statusCode = 202 → ∀ j, resp.body = some j →
      pixelcutGenerate key p g gm pg rb wf net =
        (TryOnResult.failure Stage.submit
          "処理がキューに追加されました。job_idでの状態確認機能は未実装です。",
         [pixelcutPostEffect gm pg rb wf])) := by
  constructor
  · intro hs hb hrl
    constructor
    · cases h1 : net 1 with
      | ok ir =>
        by_cases hir : ir.statusCode = 200
        · cases hei : ir.embeddedImage <;>
            simp [pixelcutGenerate, hkey, h0, hs, hb, jsonMember, Json.lookup, hrl,
              jsonSubscript, h1, hir, hei]
        · simp [pixelcutGenerate, hkey, h0, hs, hb, jsonMember, Json.lookup, hrl,
            jsonSubscript, h1, hir]
      | netTimeout =>
        simp [pixelcutGenerate, hkey, h0, hs, hb, jsonMember, Json.lookup, hrl,
          jsonSubscript, h1]
      | netError e =>
        simp [pixelcutGenerate, hkey, h0, hs, hb, jsonMember, Json.lookup, hrl,
          jsonSubscript, h1]
    · intro ir h1 hir
      simp [pixelcutGenerate, hkey, h0, hs, hb, jsonMember, Json.lookup, hrl,
        jsonSubscript, h1, hir]
  · intro hs2 j hb2
    simp [pixelcutGenerate, hkey, h0, hs2, hb2]

/-- Witness for C5 (amended): a 200 submit with `result_url` followed by a
404 download, and a 202 submit. -/
theorem c5_pixelcut_result_fetch_witness :
    (pixelcutGenerate (some "k") testImg testImg "auto" true false true pixelcutDlNet).2 =
      [pixelcutPostEffect "auto" true false true, Effect.get "https://cdn/result.jpg"] ∧
    (pixelcutGenerate (some "k") testImg testImg "auto" true false true pixelcutDlNet).1 =
      TryOnResult.failure Stage.download
        ("結果画像のダウンロードに失敗しました: " ++ toString pixelcut404Resp.statusCode) ∧
    pixelcutGenerate (some "k") testImg testImg "auto" true false true pixelcut202Net =
      (TryOnResult.failure Stage.submit
        "処理がキューに追加されました。job_idでの状態確認機能は未実装です。",
       [pixelcutPostEffect "auto" true false true]) := by
  have h := c5_pixelcut_result_fetch (some "k") testImg testImg "auto" true false true
    pixelcutDlNet pixelcutOkResp [("result_url", Json.str "https://cdn/result.jpg")]
    "https://cdn/result.jpg" rfl rfl
  have h1 := h.1 rfl rfl rfl
  have h2 := c5_pixelcut_result_fetch (some "k") testImg testImg "auto" true false true
    pixelcut202Net pixelcut202Resp [] "" rfl rfl
  exact ⟨h1.1, h1.2 pixelcut404Resp rfl (by decide),
    h2.2 rfl (Json.obj [("job_id", Json.str "j1")]) rfl⟩

/-- Polling depends only on the oracle's answers from the current call
index on: two oracles that agree there produce identical Fitroom poll
outcomes and traces. -/
theorem fitroomPoll_congr (net₁ net₂ : Nat → NetResult) (url : String) :
    ∀ (fuel k : Nat) (tr : List Effect), (∀ i, k ≤ i → net₁ i = net₂ i) →
      fitroomPoll net₁ url fuel k tr = fitroomPoll net₂ url fuel k tr := by
  intro fuel
  induction fuel with
  | zero => intro k tr _; rfl
  | succ n ih =>
    intro k tr h
    have hk : net₁ k = net₂ k := h k (Nat.le_refl k)
    have hk1 : net₁ (k + 1) = net₂ (k + 1) := h (k + 1) (Nat.le_succ k)
    have h1 : ∀ i, k + 1 ≤ i → net₁ i = net₂ i := fun i hi => h i (Nat.le_of_succ_le hi)
    have h2 : ∀ i, k + 2 ≤ i → net₁ i = net₂ i := fun i hi => h i (by omega)
    simp only [fitroomPoll, hk, hk1]
    repeat' split
    all_goals first
      | rfl
      | exact ih (k + 1) _ h1
      | exact ih (k + 2) _ h2

/-- Task submission and polling depend only on the oracle's answers from
the current call index on. -/
theorem fitroomAfterCheck_congr (args : FitroomArgs) (net₁ net₂ : Nat → NetResult) (k : Nat)
    (tr : List Effect) (h : ∀ i, k ≤ i → net₁ i = net₂ i) :
    fitroomAfterCheck args net₁ k tr = fitroomAfterCheck args net₂ k tr := by
  have hk : net₁ k = net₂ k := h k (Nat.le_refl k)
  have h1 : ∀ i, k + 1 ≤ i → net₁ i = net₂ i := fun i hi => h i (by omega)
  simp only [fitroomAfterCheck, hk]
  repeat' split
  all_goals first
    | rfl
    | exact fitroomPoll_congr net₁ net₂ _ 60 (k + 1) _ h1

/-- Counterexample to claim C6 as stated: a negative person-image check
whose `error_code` is `401` — a 4xx code — does NOT block: the code only
checks `error_code.startswith('400')`, so the run proceeds to task
submission and polling (the trace contains the task-creation POST and a
poll GET, and the outcome is the vendor poll failure, not the person-image
rejection). -/
theorem c6_counterexample :
    fitroomGenerate (some "k") testImg testImg {} fitroomC6Net =
      (TryOnResult.failure Stage.poll "Fitroom API 処理エラー: boom",
       [fitroomCheckModelEffect, fitroomCheckClothesEffect, fitroomCreateEffect {},
        Effect.sleep 2, Effect.get (fitroomTasksUrl ++ "/" ++ Json.render (Json.str "task1"))]) := rfl

/-- Claim C6 (amended): with image checking enabled, a negative
person-image check result whose `error_code` string starts with `'400'`
makes `generate` fail at validation before task submission (the trace ends
at the person-check POST); a negative person-image result with any other
`error_code`, and a garment-image result judged not-clothes, are advisory
only — the run is identical to one where the same check succeeded. -/
theorem c6_fitroom_check_gating :
    (∀ (key : Option String) (m c : PImage) (args : FitroomArgs) (net : Nat → NetResult)
       (s : String),
      keyMissing key = false → args.checkImages = true →
      net 0 = NetResult.ok (fitroomNegCheckResp s) → pyStartsWith s "400" = true →
      fitroomGenerate key m c args net =
        (TryOnResult.failure Stage.validation
          "モデル画像が使用できません。別の画像をお試しください。",
         [fitroomCheckModelEffect])) ∧
    (∀ (key : Option String) (m c : PImage) (args : FitroomArgs) (net : Nat → NetResult)
       (s : String),
      keyMissing key = false → args.checkImages = true → pyStartsWith s "400" = false →
      fitroomGenerate key m c args (netOverride net 0 (NetResult.ok (fitroomNegCheckResp s))) =
        fitroomGenerate key m c args (netOverride net 0 (NetResult.ok fitroomGoodCheckResp))) ∧
    (∀ (key : Option String) (m c : PImage) (args : FitroomArgs) (net : Nat → NetResult),
      keyMissing key = false → args.checkImages = true →
      fitroomGenerate key m c args (netOverride net 1 (NetResult.ok fitroomClothNegResp)) =
        fitroomGenerate key m c args (netOverride net 1 (NetResult.ok fitroomClothGoodResp))) := by
  refine ⟨?_, ?_, ?_⟩
  · intro key m c args net s hkey hchk h0 h400
    simp [fitroomGenerate, hkey, hchk, fitroomCheckPhase, fitroomModelCheckStep,
      fitroomCheckResult, h0, fitroomNegCheckResp, Json.lookup, assocFind, jsonTruthy, h400]
  · intro key m c args net s hkey hchk h400f
    have hph : fitroomCheckPhase args.clothType
        (netOverride net 0 (NetResult.ok (fitroomNegCheckResp s))) =
        fitroomCheckPhase args.clothType (netOverride net 0 (NetResult.ok fitroomGoodCheckResp)) := by
      simp [fitroomCheckPhase, fitroomModelCheckStep, netOverride, fitroomCheckResult,
        fitroomNegCheckResp, fitroomGoodCheckResp, Json.lookup, assocFind, jsonTruthy,
        pyInOk, h400f]
    simp only [fitroomGenerate, hkey, hchk, if_true, Bool.false_eq_true, if_false]
    rw [hph]
    cases hp2 : fitroomCheckPhase args.clothType
        (netOverride net 0 (NetResult.ok fitroomGoodCheckResp)) with
    | mk first snd =>
      cases first with
      | some r => rfl
      | none =>
        exact fitroomAfterCheck_congr args _ _ 2 snd (fun i hi => by
          have hne : i ≠ 0 := by omega
          simp [netOverride, hne])
  · intro key m c args net hkey hchk
    have e0 : (netOverride net 1 (NetResult.ok fitroomClothNegResp)) 0 = net 0 := by
      simp [netOverride]
    have e0g : (netOverride net 1 (NetResult.ok fitroomClothGoodResp)) 0 = net 0 := by
      simp [netOverride]
    have e1 : (netOverride net 1 (NetResult.ok fitroomClothNegResp)) 1 =
        NetResult.ok fitroomClothNegResp := by simp [netOverride]
    have e1g : (netOverride net 1 (NetResult.ok fitroomClothGoodResp)) 1 =
        NetResult.ok fitroomClothGoodResp := by simp [netOverride]
    have hph : fitroomCheckPhase args.clothType
        (netOverride net 1 (NetResult.ok fitroomClothNegResp)) =
        fitroomCheckPhase args.clothType (netOverride net 1 (NetResult.ok fitroomClothGoodResp)) := by
      simp only [fitroomCheckPhase, e0, e0g, e1, e1g]
      cases fitroomModelCheckStep args.clothType (net 0) with
      | some r => rfl
      | none =>
        simp [fitroomClothesCheckStep, fitroomCheckResult, fitroomClothNegResp,
          fitroomClothGoodResp, jsonTruthy]
    simp only [fitroomGenerate, hkey, hchk, if_true, Bool.false_eq_true, if_false]
    rw [hph]
    cases hp2 : fitroomCheckPhase args.clothType
        (netOverride net 1 (NetResult.ok fitroomClothGoodResp)) with
    | mk first snd =>
      cases first with
      | some r => rfl
      | none =>
        exact fitroomAfterCheck_congr args _ _ 2 snd (fun i hi => by
          have hne : i ≠ 1 := by omega
          simp [netOverride, hne])

/-- Witness for C6 (amended) at concrete oracles: fatal `4001`, advisory
`401`, and advisory garment negative. -/
theorem c6_fitroom_check_gating_witness :
    fitroomGenerate (some "k") testImg testImg {} fitroomNeg4001Net =
      (TryOnResult.failure Stage.validation
        "モデル画像が使用できません。別の画像をお試しください。",
       [fitroomCheckModelEffect]) ∧
    fitroomGenerate (some "k") testImg testImg {}
        (netOverride testNet 0 (NetResult.ok (fitroomNegCheckResp "401"))) =
      fitroomGenerate (some "k") testImg testImg {}
        (netOverride testNet 0 (NetResult.ok fitroomGoodCheckResp)) ∧
    fitroomGenerate (some "k") testImg testImg {}
        (netOverride testNet 1 (NetResult.ok fitroomClothNegResp)) =
      fitroomGenerate (some "k") testImg testImg {}
        (netOverride testNet 1 (NetResult.ok fitroomClothGoodResp)) := by
  obtain ⟨ha, hb, hc⟩ := c6_fitroom_check_gating
  exact ⟨ha (some "k") testImg testImg {} fitroomNeg4001Net "4001" rfl rfl rfl (by decide),
    hb (some "k") testImg testImg {} testNet "401" rfl rfl (by decide),
    hc (some "k") testImg testImg {} testNet rfl rfl⟩

/-- Counterexample to claim C7 as stated: the PixelCut adapter does not
consult a `detail` field.  At a 400 submit response whose JSON body is
`{"detail": "boom"}`, the failure reason is just the status-code prefix —
`boom` does not occur in it. -/
theorem c7_counterexample :
    (pixelcutGenerate (some "k") testImg testImg "auto" true false true pixelcutDetailNet).1 =
      TryOnResult.failure Stage.submit "PixelCut API エラー: 400" ∧
    strContains "PixelCut API エラー: 400" "boom" = false := by
  exact ⟨rfl, by decide⟩

/-- Claim C7 (amended): at a non-success submit response, each adapter
builds its failure reason by best-effort JSON decoding of the error body
with an adapter-specific field list — `error`/`message`/`detail` for FASHN,
`error`/`message` for Try-On Diffusion and PixelCut, `error` alone for
Fitroom task creation; a body that fails JSON parsing appends the raw
response text instead, and a parsed object hit on a listed field appends
that field's value (later fields are consulted only when earlier ones are
absent). -/
theorem c7_best_effort_error_decoding :
    (∀ (key : Option String) (m g : PImage) (category : String) (steps gscale seed : Int)
       (net : Nat → NetResult) (resp : HttpResponse),
      keyMissing key = false → net 0 = NetResult.ok resp → resp.statusCode ≠ 200 →
      (tryonDiffusionGenerate key m g category steps gscale seed net).1 =
        TryOnResult.failure Stage.submit
          (bestEffortErrorMsg ("Try-On Diffusion API エラー: " ++ toString resp.statusCode)
            ["error", "message"] resp.body resp.text)) ∧
    (∀ (key : Option String) (p g : PImage) (gm : String) (pg rb wf : Bool)
       (net : Nat → NetResult) (resp : HttpResponse),
      keyMissing key = false → net 0 = NetResult.ok resp → resp.statusCode ≠ 200 →
      resp.statusCode ≠ 202 →
      (pixelcutGenerate key p g gm pg rb wf net).1 =
        TryOnResult.failure Stage.submit
          (bestEffortErrorMsg ("PixelCut API エラー: " ++ toString resp.statusCode)
            ["error", "message"] resp.body resp.text)) ∧
    (∀ (key : Option String) (m g : PImage) (args : FashnArgs) (net : Nat → NetResult)
       (resp : HttpResponse),
      keyMissing key = false → net 0 = NetResult.ok resp → resp.statusCode ≠ 200 →
      (fashnGenerate key m g args net).1 =
        TryOnResult.failure Stage.submit
          (bestEffortErrorMsg ("FASHN API 実行エラー: " ++ toString resp.statusCode)
            ["error", "message", "detail"] resp.body resp.text)) ∧
    (∀ (key : Option String) (m c : PImage) (args : FitroomArgs) (net : Nat → NetResult)
       (resp : HttpResponse),
      keyMissing key = false → args.checkImages = false → net 0 = NetResult.ok resp →
      resp.statusCode ≠ 200 →
      (fitroomGenerate key m c args net).1 =
        TryOnResult.failure Stage.submit
          (bestEffortErrorMsg ("タスク作成エラー: " ++ toString resp.statusCode)
            ["error"] resp.body resp.text)) ∧
    (∀ (base text : String) (fields : List String),
      bestEffortErrorMsg base fields none text = base ++ " - " ++ text) ∧
    (∀ (base text e : String),
      bestEffortErrorMsg base ["error", "message"]
        (some (Json.obj [("message", Json.str e)])) text = base ++ " - " ++ e) ∧
    (∀ (base text e : String),
      bestEffortErrorMsg base ["error", "message", "detail"]
        (some (Json.obj [("detail", Json.str e)])) text = base ++ " - " ++ e) ∧
    (∀ (base text e other : String),
      bestEffortErrorMsg base ["error", "message"]
        (some (Json.obj [("error", Json.str e), ("message", Json.str other)])) text =
        base ++ " - " ++ e) := by
  refine ⟨?_, ?_, ?_, ?_, fun base text fields => rfl, fun base text e => rfl,
    fun base text e => rfl, fun base text e other => rfl⟩
  · intro key m g category steps gscale seed net resp hkey h0 hs
    simp [tryonDiffusionGenerate, hkey, h0, hs]
  · intro key p g gm pg rb wf net resp hkey h0 hs hs2
    simp [pixelcutGenerate, hkey, h0, hs, hs2]
  · intro key m g args net resp hkey h0 hs
    simp [fashnGenerate, hkey, fashnPrepareImage, h0, hs]
  · intro key m c args net resp hkey hchk h0 hs
    simp [fitroomGenerate, hkey, hchk, fitroomAfterCheck, fitroomCreateTask, h0, hs]

/-- Witness for C7 (amended) at a 400 response carrying only a `detail`
field: FASHN's reason includes it, PixelCut's does not. -/
theorem c7_best_effort_error_decoding_witness :
    (fashnGenerate (some "k") testImg testImg {} pixelcutDetailNet).1 =
      TryOnResult.failure Stage.submit
        (bestEffortErrorMsg ("FASHN API 実行エラー: " ++ toString pixelcutDetailResp.statusCode)
          ["error", "message", "detail"] pixelcutDetailResp.body pixelcutDetailResp.text) ∧
    (pixelcutGenerate (some "k") testImg testImg "auto" true false true pixelcutDetailNet).1 =
      TryOnResult.failure Stage.submit
        (bestEffortErrorMsg ("PixelCut API エラー: " ++ toString pixelcutDetailResp.statusCode)
          ["error", "message"] pixelcutDetailResp.body pixelcutDetailResp.text) ∧
    bestEffortErrorMsg "PixelCut API エラー: 400" ["error", "message"] none "raw-body" =
      "PixelCut API エラー: 400" ++ " - " ++ "raw-body" := by
  obtain ⟨h1, h2, h3, h4, h5, h6, h7, h8⟩ := c7_best_effort_error_decoding
  exact ⟨h3 (some "k") testImg testImg {} pixelcutDetailNet pixelcutDetailResp rfl rfl (by decide),
    h2 (some "k") testImg testImg "auto" true false true pixelcutDetailNet pixelcutDetailResp
      rfl rfl (by decide) (by decide),
    h5 "PixelCut API エラー: 400" "raw-body" ["error", "message"]⟩
